import Mathlib

/-!
# UdpPeer: a byte-stream connection over one W5100 socket slot

A shallow embedding of `UdpPeer.cpp` / `UdpPeer.h`.

* The W5100 driver (`utility/W5100.h`) is an external collaborator whose code is
  not part of the sources; it is taken as a parameter: a record of operations
  over an arbitrary hardware state `σ`.  Register reads and status checks are
  functions of the hardware state; commands return a result and a new state.
* Every driver call made by a method is appended to a call log, so that
  "makes no driver call" is a property of the model.
* `uint32_t` counters are `Nat` with explicit reduction modulo `2 ^ 32`,
  `uint16_t` counts are `Nat` with explicit reduction modulo `2 ^ 16`.
* `UdpPeer::close` contains an unbounded `while` loop; it is modelled with a
  fuel argument that bounds the number of loop iterations, and every method
  that may call `close` carries that argument and returns an `Option`.
-/

namespace HttpSvr

/-! ## Machine types -/

/-- An `uint8_t` value. -/
abbrev Byte := Fin 256

/-- The modulus of `uint16_t` arithmetic. -/
def U16 : Nat := 65536

/-- The modulus of `uint32_t` arithmetic. -/
def U32 : Nat := 4294967296

/-- Result codes of the driver (`W5100::retcode_e`): the methods only ever
compare a result with `rc_ok`, every other code is carried as a number. -/
inductive rc_e where
  | rc_ok : rc_e
  | rc_error (code : Nat) : rc_e
  deriving DecidableEq, Repr

/-- The two 16-bit socket registers that `UdpPeer` reads. -/
inductive SnReg where
  | W5100_Sn_PORT : SnReg
  | W5100_Sn_DPORT : SnReg
  deriving DecidableEq, Repr

/-- Four octets of an address (`W5100::ipv4_address_t`, `IPAddress`). -/
structure ipv4_address_t where
  ip0 : Byte
  ip1 : Byte
  ip2 : Byte
  ip3 : Byte
  deriving DecidableEq, Repr

/-- A socket slot identifier (`W5100::socket_e`). -/
abbrev socket_e := Nat

/-- A pointer to a byte buffer: `none` is the null pointer. -/
abbrev Buffer := Option (List Byte)

/-! ## The driver -/

/-- The operations of the W5100 driver that `UdpPeer` uses, over a hardware
state `σ`.  `socket_begin`, `socket_end` are `uint8_t` loop bounds,
`read_Sn_R16` and the port arguments are `uint16_t` values, `receive hw sn n`
returns the bytes it stored in the caller's buffer (their number is the count
the C function returns), `send` returns the number of bytes it accepted. -/
structure W5100 (σ : Type) where
  socket_begin : Nat
  socket_end : Nat
  socket_undefined : socket_e
  socket_cast : Nat → socket_e
  isClosed : σ → socket_e → Bool
  isOpen : σ → socket_e → Bool
  read_Sn_R16 : σ → socket_e → SnReg → Nat
  checkReceivePending : σ → socket_e → rc_e
  canTransmitData : σ → socket_e → Bool
  openUDP : σ → socket_e → Nat → rc_e × σ
  close : σ → socket_e → rc_e × σ
  waitReceivePending : σ → socket_e → rc_e × σ
  receive : σ → socket_e → Nat → List Byte × σ
  send : σ → socket_e → ipv4_address_t → Nat → Buffer → Nat → Nat × σ
  waitSendCompleted : σ → socket_e → rc_e × σ

/-- One call into the driver, with its arguments. -/
inductive DriverCall where
  | isClosed (sn : socket_e) : DriverCall
  | isOpen (sn : socket_e) : DriverCall
  | read_Sn_R16 (sn : socket_e) (reg : SnReg) : DriverCall
  | checkReceivePending (sn : socket_e) : DriverCall
  | canTransmitData (sn : socket_e) : DriverCall
  | openUDP (sn : socket_e) (port : Nat) : DriverCall
  | close (sn : socket_e) : DriverCall
  | waitReceivePending (sn : socket_e) : DriverCall
  | receive (sn : socket_e) (n : Nat) : DriverCall
  | send (sn : socket_e) (ip : ipv4_address_t) (port : Nat) (buf : Buffer) (n : Nat) : DriverCall
  | waitSendCompleted (sn : socket_e) : DriverCall
  deriving DecidableEq, Repr

/-- The world outside the `UdpPeer` object: the hardware state and the log of
the driver calls made so far (oldest first). -/
structure World (σ : Type) where
  hw : σ
  calls : List DriverCall
  deriving DecidableEq

namespace Hw

variable {σ : Type}

/-- Logged call of `W5100::isClosed`. -/
def isClosed (d : W5100 σ) (sn : socket_e) (w : World σ) : Bool × World σ :=
  (d.isClosed w.hw sn, { w with calls := w.calls ++ [DriverCall.isClosed sn] })

/-- Logged call of `W5100::isOpen`. -/
def isOpen (d : W5100 σ) (sn : socket_e) (w : World σ) : Bool × World σ :=
  (d.isOpen w.hw sn, { w with calls := w.calls ++ [DriverCall.isOpen sn] })

/-- Logged call of `W5100::read_Sn_R16`. -/
def read_Sn_R16 (d : W5100 σ) (sn : socket_e) (reg : SnReg) (w : World σ) : Nat × World σ :=
  (d.read_Sn_R16 w.hw sn reg, { w with calls := w.calls ++ [DriverCall.read_Sn_R16 sn reg] })

/-- Logged call of `W5100::checkReceivePending`. -/
def checkReceivePending (d : W5100 σ) (sn : socket_e) (w : World σ) : rc_e × World σ :=
  (d.checkReceivePending w.hw sn,
    { w with calls := w.calls ++ [DriverCall.checkReceivePending sn] })

/-- Logged call of `W5100::canTransmitData`. -/
def canTransmitData (d : W5100 σ) (sn : socket_e) (w : World σ) : Bool × World σ :=
  (d.canTransmitData w.hw sn, { w with calls := w.calls ++ [DriverCall.canTransmitData sn] })

/-- Logged call of `W5100::openUDP`. -/
def openUDP (d : W5100 σ) (sn : socket_e) (port : Nat) (w : World σ) : rc_e × World σ :=
  ((d.openUDP w.hw sn port).1,
    { hw := (d.openUDP w.hw sn port).2, calls := w.calls ++ [DriverCall.openUDP sn port] })

/-- Logged call of `W5100::close`. -/
def close (d : W5100 σ) (sn : socket_e) (w : World σ) : rc_e × World σ :=
  ((d.close w.hw sn).1,
    { hw := (d.close w.hw sn).2, calls := w.calls ++ [DriverCall.close sn] })

/-- Logged call of `W5100::waitReceivePending`. -/
def waitReceivePending (d : W5100 σ) (sn : socket_e) (w : World σ) : rc_e × World σ :=
  ((d.waitReceivePending w.hw sn).1,
    { hw := (d.waitReceivePending w.hw sn).2,
      calls := w.calls ++ [DriverCall.waitReceivePending sn] })

/-- Logged call of `W5100::receive`. -/
def receive (d : W5100 σ) (sn : socket_e) (n : Nat) (w : World σ) : List Byte × World σ :=
  ((d.receive w.hw sn n).1,
    { hw := (d.receive w.hw sn n).2, calls := w.calls ++ [DriverCall.receive sn n] })

/-- Logged call of `W5100::send`. -/
def send (d : W5100 σ) (sn : socket_e) (ip : ipv4_address_t) (port : Nat) (buf : Buffer)
    (n : Nat) (w : World σ) : Nat × World σ :=
  ((d.send w.hw sn ip port buf n).1,
    { hw := (d.send w.hw sn ip port buf n).2,
      calls := w.calls ++ [DriverCall.send sn ip port buf n] })

/-- Logged call of `W5100::waitSendCompleted`. -/
def waitSendCompleted (d : W5100 σ) (sn : socket_e) (w : World σ) : rc_e × World σ :=
  ((d.waitSendCompleted w.hw sn).1,
    { hw := (d.waitSendCompleted w.hw sn).2,
      calls := w.calls ++ [DriverCall.waitSendCompleted sn] })

end Hw

/-! ## The object -/

/-- The data members of `UdpPeer` (UdpPeer.h, private section). -/
structure UdpPeer where
  my_sn : socket_e
  my_unreadByte : Byte
  my_unreadByteAvail : Bool
  my_totRead : Nat
  my_totWrite : Nat
  my_connIdleStart : Nat
  my_dstIpAddr : ipv4_address_t
  my_dstPort : Nat
  deriving DecidableEq, Repr

variable {σ : Type}

/-- `UdpPeer::prv_isValidSn`. -/
def UdpPeer.prv_isValidSn (d : W5100 σ) (self : UdpPeer) : Bool :=
  decide (self.my_sn ≠ d.socket_undefined)

/-- The `while` loop of `UdpPeer::close`: `fuel` bounds the number of times the
loop body runs.  The result is `true` when the loop ended with the slot closed,
`false` when a driver close reported an error. -/
def UdpPeer.close_loop (d : W5100 σ) (sn : socket_e) : Nat → World σ → Option (Bool × World σ)
  | fuel, w =>
    if (Hw.isClosed d sn w).1 then some (true, (Hw.isClosed d sn w).2)
    else
      match fuel with
      | 0 => none
      | fuel + 1 =>
        if (Hw.close d sn (Hw.isClosed d sn w).2).1 ≠ rc_e.rc_ok then
          some (false, (Hw.close d sn (Hw.isClosed d sn w).2).2)
        else UdpPeer.close_loop d sn fuel (Hw.close d sn (Hw.isClosed d sn w).2).2

/-- `UdpPeer::close`. -/
def UdpPeer.close (d : W5100 σ) (fuel : Nat) (self : UdpPeer) (w : World σ) :
    Option (Bool × UdpPeer × World σ) :=
  if !self.prv_isValidSn d then some (true, self, w)
  else
    match UdpPeer.close_loop d self.my_sn fuel w with
    | none => none
    | some (false, w1) => some (false, self, w1)
    | some (true, w1) => some (true, { self with my_sn := d.socket_undefined }, w1)

/-- The first loop of `UdpPeer::open` ("check if this port is available"):
`k` is the number of iterations left (`socket_end - sn`).  The result is `true`
when the loop returned from `open` because a slot that is not closed already
uses `the_srcPort`. -/
def UdpPeer.open_scan (d : W5100 σ) (the_srcPort : Nat) :
    Nat → Nat → World σ → Bool × World σ
  | 0, _, w => (false, w)
  | k + 1, sn, w =>
    if (Hw.isClosed d (d.socket_cast sn) w).1 then
      UdpPeer.open_scan d the_srcPort k (sn + 1) (Hw.isClosed d (d.socket_cast sn) w).2
    else if (Hw.read_Sn_R16 d (d.socket_cast sn) SnReg.W5100_Sn_PORT
              (Hw.isClosed d (d.socket_cast sn) w).2).1 % U16 = the_srcPort then
      (true, (Hw.read_Sn_R16 d (d.socket_cast sn) SnReg.W5100_Sn_PORT
              (Hw.isClosed d (d.socket_cast sn) w).2).2)
    else
      UdpPeer.open_scan d the_srcPort k (sn + 1)
        (Hw.read_Sn_R16 d (d.socket_cast sn) SnReg.W5100_Sn_PORT
          (Hw.isClosed d (d.socket_cast sn) w).2).2

/-- The second loop of `UdpPeer::open` ("try to open a socket with this
srcPort"): the slot on which `openUDP` reported `rc_ok`, if any. -/
def UdpPeer.open_try (d : W5100 σ) (the_srcPort : Nat) :
    Nat → Nat → World σ → Option socket_e × World σ
  | 0, _, w => (none, w)
  | k + 1, sn, w =>
    match (Hw.openUDP d (d.socket_cast sn) the_srcPort w).1 with
    | rc_e.rc_ok => (some (d.socket_cast sn), (Hw.openUDP d (d.socket_cast sn) the_srcPort w).2)
    | _ => UdpPeer.open_try d the_srcPort k (sn + 1)
             (Hw.openUDP d (d.socket_cast sn) the_srcPort w).2

/-- `UdpPeer::open`. -/
def UdpPeer.open (d : W5100 σ) (fuel : Nat) (self : UdpPeer) (the_srcPort : Nat)
    (the_dstIpAddr : ipv4_address_t) (the_dstPort : Nat) (w : World σ) :
    Option (Bool × UdpPeer × World σ) :=
  if (UdpPeer.open_scan d the_srcPort (d.socket_end - d.socket_begin) d.socket_begin w).1 then
    some (false, self,
      (UdpPeer.open_scan d the_srcPort (d.socket_end - d.socket_begin) d.socket_begin w).2)
  else
    match UdpPeer.open_try d the_srcPort (d.socket_end - d.socket_begin) d.socket_begin
        (UdpPeer.open_scan d the_srcPort (d.socket_end - d.socket_begin) d.socket_begin w).2 with
    | (some sn, w2) =>
      some (true,
        { self with my_sn := sn, my_dstIpAddr := the_dstIpAddr, my_dstPort := the_dstPort }, w2)
    | (none, w2) =>
      match UdpPeer.close d fuel self w2 with
      | none => none
      | some (_, self1, w3) => some (false, self1, w3)

/-- `UdpPeer::isOpen`. -/
def UdpPeer.isOpen (d : W5100 σ) (self : UdpPeer) (w : World σ) : Bool × World σ :=
  if !self.prv_isValidSn d then (false, w) else Hw.isOpen d self.my_sn w

/-- `UdpPeer::triggerConnTimeout`; `millis` is the value `millis()` returns. -/
def UdpPeer.triggerConnTimeout (self : UdpPeer) (millis : Nat) : UdpPeer :=
  { self with my_connIdleStart := millis % U32 }

/-- `UdpPeer::connTimeoutExpired`; `millis` is the value `millis()` returns. -/
def UdpPeer.connTimeoutExpired (self : UdpPeer) (millis : Nat) : Bool :=
  decide ((millis % U32 + U32 - self.my_connIdleStart % U32) % U32 > 5000)

/-- `UdpPeer::localPort`. -/
def UdpPeer.localPort (d : W5100 σ) (self : UdpPeer) (w : World σ) : Nat × World σ :=
  if self.prv_isValidSn d then
    ((Hw.read_Sn_R16 d self.my_sn SnReg.W5100_Sn_PORT w).1 % U16,
      (Hw.read_Sn_R16 d self.my_sn SnReg.W5100_Sn_PORT w).2)
  else (0, w)

/-- `UdpPeer::remotePort`. -/
def UdpPeer.remotePort (d : W5100 σ) (self : UdpPeer) (w : World σ) : Nat × World σ :=
  if self.prv_isValidSn d then
    ((Hw.read_Sn_R16 d self.my_sn SnReg.W5100_Sn_DPORT w).1 % U16,
      (Hw.read_Sn_R16 d self.my_sn SnReg.W5100_Sn_DPORT w).2)
  else (0, w)

/-- `UdpPeer::readByte`.  `the_byte` is the referenced variable on entry; the
second component of the result is its value on return. -/
def UdpPeer.readByte (d : W5100 σ) (fuel : Nat) (self : UdpPeer) (the_byte : Byte)
    (w : World σ) : Option (Bool × Byte × UdpPeer × World σ) :=
  if !self.prv_isValidSn d then some (false, the_byte, self, w)
  else if self.my_unreadByteAvail then
    some (true, self.my_unreadByte,
      { self with my_unreadByteAvail := false, my_totRead := (self.my_totRead + 1) % U32 }, w)
  else if (Hw.waitReceivePending d self.my_sn w).1 ≠ rc_e.rc_ok then
    match UdpPeer.close d fuel self (Hw.waitReceivePending d self.my_sn w).2 with
    | none => none
    | some (_, self1, w1) => some (false, the_byte, self1, w1)
  else
    let r := Hw.receive d self.my_sn 1 (Hw.waitReceivePending d self.my_sn w).2
    let uRead := r.1.length % U16
    some (decide (uRead = 1), r.1.headD the_byte,
      { self with my_totRead := (self.my_totRead + uRead) % U32 }, r.2)

/-- The bytes a driver `receive` stores through a buffer pointer: `data` is
written to `buf` from position `off` on. -/
def storeAt (buf : List Byte) (off : Nat) : List Byte → List Byte
  | [] => buf
  | x :: xs => storeAt (buf.set off x) (off + 1) xs

/-- `UdpPeer::readBuffer`.  The second component of the result is the content of
the caller's buffer on return. -/
def UdpPeer.readBuffer (d : W5100 σ) (fuel : Nat) (self : UdpPeer) (the_buffer : Buffer)
    (the_size : Nat) (w : World σ) : Option (Nat × Buffer × UdpPeer × World σ) :=
  if !self.prv_isValidSn d then some (0, the_buffer, self, w)
  else
    match the_buffer with
    | none => some (0, none, self, w)
    | some buf =>
      if the_size = 0 then some (0, some buf, self, w)
      else
        let avail := self.my_unreadByteAvail
        let self1 : UdpPeer := if avail then { self with my_unreadByteAvail := false } else self
        let buf1 := if avail then buf.set 0 self.my_unreadByte else buf
        let off := if avail then 1 else 0
        let uRead := if avail then 1 else 0
        let size1 := if avail then the_size - 1 else the_size
        if (Hw.waitReceivePending d self.my_sn w).1 ≠ rc_e.rc_ok then
          match UdpPeer.close d fuel
              { self1 with my_totRead := (self1.my_totRead + uRead) % U32 }
              (Hw.waitReceivePending d self.my_sn w).2 with
          | none => none
          | some (_, self2, w2) => some (uRead, some buf1, self2, w2)
        else
          let r := Hw.receive d self.my_sn size1 (Hw.waitReceivePending d self.my_sn w).2
          let uRead1 := (uRead + r.1.length % U16) % U16
          some (uRead1, some (storeAt buf1 off r.1),
            { self1 with my_totRead := (self1.my_totRead + uRead1) % U32 }, r.2)

/-- `UdpPeer::unreadByte`. -/
def UdpPeer.unreadByte (d : W5100 σ) (self : UdpPeer) (the_byte : Byte) (w : World σ) :
    Bool × UdpPeer × World σ :=
  if !self.prv_isValidSn d then (false, self, w)
  else if self.my_unreadByteAvail then (false, self, w)
  else
    (true,
      { self with
        my_unreadByte := the_byte, my_unreadByteAvail := true,
        my_totRead := (self.my_totRead + U32 - 1) % U32 }, w)

/-- `UdpPeer::peekByte`: `readByte(the_byte) && unreadByte(the_byte)`. -/
def UdpPeer.peekByte (d : W5100 σ) (fuel : Nat) (self : UdpPeer) (the_byte : Byte)
    (w : World σ) : Option (Bool × Byte × UdpPeer × World σ) :=
  match UdpPeer.readByte d fuel self the_byte w with
  | none => none
  | some (false, b, self1, w1) => some (false, b, self1, w1)
  | some (true, b, self1, w1) =>
    some ((UdpPeer.unreadByte d self1 b w1).1, b,
      (UdpPeer.unreadByte d self1 b w1).2.1, (UdpPeer.unreadByte d self1 b w1).2.2)

/-- `UdpPeer::anyDataReceived`. -/
def UdpPeer.anyDataReceived (d : W5100 σ) (self : UdpPeer) (w : World σ) : Bool × World σ :=
  if !self.prv_isValidSn d then (false, w)
  else
    (decide ((Hw.checkReceivePending d self.my_sn w).1 = rc_e.rc_ok),
      (Hw.checkReceivePending d self.my_sn w).2)

/-- The `while` loop of `UdpPeer::flushRead`: `n` bounds the number of times the
loop body runs, `fuel` is handed to each `readByte`.  `c` is the local byte. -/
def UdpPeer.flushRead_loop (d : W5100 σ) (fuel : Nat) :
    Nat → UdpPeer → Byte → World σ → Option (UdpPeer × World σ)
  | n, self, c, w =>
    if (Hw.checkReceivePending d self.my_sn w).1 = rc_e.rc_ok then
      match n with
      | 0 => none
      | n + 1 =>
        match UdpPeer.readByte d fuel self c (Hw.checkReceivePending d self.my_sn w).2 with
        | none => none
        | some (_, c1, self1, w1) => UdpPeer.flushRead_loop d fuel n self1 c1 w1
    else some (self, (Hw.checkReceivePending d self.my_sn w).2)

/-- `UdpPeer::flushRead`; `c0` is the indeterminate initial value of the local
byte `c`. -/
def UdpPeer.flushRead (d : W5100 σ) (fuel : Nat) (self : UdpPeer) (c0 : Byte) (w : World σ) :
    Option (UdpPeer × World σ) :=
  if !self.prv_isValidSn d then some (self, w)
  else UdpPeer.flushRead_loop d fuel fuel self c0 w

/-- `UdpPeer::writeByte`. -/
def UdpPeer.writeByte (d : W5100 σ) (fuel : Nat) (self : UdpPeer) (the_byte : Byte)
    (w : World σ) : Option (Bool × UdpPeer × World σ) :=
  if !self.prv_isValidSn d then some (false, self, w)
  else if !(Hw.canTransmitData d self.my_sn w).1 then
    match UdpPeer.close d fuel self (Hw.canTransmitData d self.my_sn w).2 with
    | none => none
    | some (_, self1, w1) => some (false, self1, w1)
  else if (Hw.send d self.my_sn self.my_dstIpAddr self.my_dstPort (some [the_byte]) 1
            (Hw.canTransmitData d self.my_sn w).2).1 % U16 ≠ 1 then
    some (false, self,
      (Hw.send d self.my_sn self.my_dstIpAddr self.my_dstPort (some [the_byte]) 1
        (Hw.canTransmitData d self.my_sn w).2).2)
  else
    some (true, { self with my_totWrite := (self.my_totWrite + 1) % U32 },
      (Hw.send d self.my_sn self.my_dstIpAddr self.my_dstPort (some [the_byte]) 1
        (Hw.canTransmitData d self.my_sn w).2).2)

/-- `UdpPeer::writeBuffer`. -/
def UdpPeer.writeBuffer (d : W5100 σ) (fuel : Nat) (self : UdpPeer) (the_buffer : Buffer)
    (the_size : Nat) (w : World σ) : Option (Nat × UdpPeer × World σ) :=
  if !self.prv_isValidSn d then some (0, self, w)
  else if !(Hw.canTransmitData d self.my_sn w).1 then
    match UdpPeer.close d fuel self (Hw.canTransmitData d self.my_sn w).2 with
    | none => none
    | some (_, self1, w1) => some (0, self1, w1)
  else
    let r := Hw.send d self.my_sn self.my_dstIpAddr self.my_dstPort the_buffer the_size
      (Hw.canTransmitData d self.my_sn w).2
    let the_size1 := r.1 % U16
    some (the_size1, { self with my_totWrite := (self.my_totWrite + the_size1) % U32 }, r.2)

/-- `UdpPeer::flushWrite`.  The guard is the one in the source:
`if (prv_isValidSn()) return;`. -/
def UdpPeer.flushWrite (d : W5100 σ) (fuel : Nat) (self : UdpPeer) (w : World σ) :
    Option (UdpPeer × World σ) :=
  if self.prv_isValidSn d then some (self, w)
  else if (Hw.waitSendCompleted d self.my_sn w).1 ≠ rc_e.rc_ok then
    match UdpPeer.close d fuel self (Hw.waitSendCompleted d self.my_sn w).2 with
    | none => none
    | some (_, self1, w1) => some (self1, w1)
  else some (self, (Hw.waitSendCompleted d self.my_sn w).2)

/-- The `n` successive `peekByte` calls of a caller that peeks `n` times: the
list holds the result and the byte of every call, in order. -/
def peekMany (d : W5100 σ) (fuel : Nat) :
    Nat → UdpPeer → Byte → World σ → Option (List (Bool × Byte) × Byte × UdpPeer × World σ)
  | 0, self, c, w => some ([], c, self, w)
  | n + 1, self, c, w =>
    match UdpPeer.peekByte d fuel self c w with
    | none => none
    | some (ok, c1, self1, w1) =>
      match peekMany d fuel n self1 c1 w1 with
      | none => none
      | some (rs, c2, self2, w2) => some ((ok, c1) :: rs, c2, self2, w2)

/-! ## A simulated chip

A concrete driver used to evaluate the methods on explicit inputs: four socket
slots, each closed or bound to a local port, with a queue of received UDP
datagrams. -/

/-- One simulated socket slot. -/
structure SimSlot where
  closed : Bool
  port : Nat
  rx : List (List Byte)
  deriving DecidableEq, Repr

/-- The simulated chip: its slots, whether the chip honours the close command,
and whether the transmit buffer has room. -/
structure SimHw where
  slots : List SimSlot
  closeFails : Bool
  txReady : Bool
  deriving DecidableEq, Repr

/-- A slot that is closed and empty. -/
def SimSlot.idle : SimSlot := { closed := true, port := 0, rx := [] }

/-- The slot `sn` of the simulated chip (a slot that does not exist is closed). -/
def SimHw.slot (hw : SimHw) (sn : socket_e) : SimSlot := hw.slots.getD sn SimSlot.idle

/-- Replaces the slot `sn` of the simulated chip. -/
def SimHw.setSlot (hw : SimHw) (sn : socket_e) (s : SimSlot) : SimHw :=
  { hw with slots := hw.slots.set sn s }

/-- Whether the slot `sn` is bound and has a datagram waiting. -/
def SimHw.pending (hw : SimHw) (sn : socket_e) : rc_e :=
  if !(hw.slot sn).closed && !(hw.slot sn).rx.isEmpty then rc_e.rc_ok else rc_e.rc_error 1

/-- The receive command: up to `n` bytes of the first waiting datagram; a
datagram that has been read to its end is dropped from the queue. -/
def SimHw.receive (hw : SimHw) (sn : socket_e) (n : Nat) : List Byte × SimHw :=
  match (hw.slot sn).rx with
  | [] => ([], hw)
  | dg :: rest =>
    (dg.take n,
      hw.setSlot sn
        { hw.slot sn with rx := if (dg.drop n).isEmpty then rest else dg.drop n :: rest })

/-- The simulated driver. -/
def simW5100 : W5100 SimHw where
  socket_begin := 0
  socket_end := 4
  socket_undefined := 255
  socket_cast := fun sn => sn
  isClosed := fun hw sn => (hw.slot sn).closed
  isOpen := fun hw sn => !(hw.slot sn).closed
  read_Sn_R16 := fun hw sn reg =>
    match reg with
    | SnReg.W5100_Sn_PORT => (hw.slot sn).port
    | SnReg.W5100_Sn_DPORT => 0
  checkReceivePending := fun hw sn => hw.pending sn
  canTransmitData := fun hw sn => !(hw.slot sn).closed && hw.txReady
  openUDP := fun hw sn port =>
    if decide (sn < hw.slots.length) && (hw.slot sn).closed then
      (rc_e.rc_ok, hw.setSlot sn { closed := false, port := port, rx := [] })
    else (rc_e.rc_error 2, hw)
  close := fun hw sn =>
    if hw.closeFails then (rc_e.rc_error 3, hw)
    else (rc_e.rc_ok, hw.setSlot sn SimSlot.idle)
  waitReceivePending := fun hw sn => (hw.pending sn, hw)
  receive := fun hw sn n => hw.receive sn n
  send := fun hw sn _ _ _ n => if (hw.slot sn).closed then (0, hw) else (n, hw)
  waitSendCompleted := fun hw sn =>
    if (hw.slot sn).closed then (rc_e.rc_error 4, hw) else (rc_e.rc_ok, hw)

/-- A chip with slot 0 bound to local port 8080 and the given datagrams waiting
on it; the other three slots are closed. -/
def simChip (rx : List (List Byte)) (closeFails txReady : Bool) : SimHw :=
  { slots := [{ closed := false, port := 8080, rx := rx },
              SimSlot.idle, SimSlot.idle, SimSlot.idle],
    closeFails := closeFails, txReady := txReady }

/-- A world around `simChip` in which no driver call has been made yet. -/
def simWorld (rx : List (List Byte)) (closeFails txReady : Bool) : World SimHw :=
  { hw := simChip rx closeFails txReady, calls := [] }

/-- A `UdpPeer` with the given slot, pending byte and counters. -/
def mkPeer (sn : socket_e) (unread : Byte) (avail : Bool) (totRead totWrite : Nat) : UdpPeer :=
  { my_sn := sn, my_unreadByte := unread, my_unreadByteAvail := avail,
    my_totRead := totRead, my_totWrite := totWrite, my_connIdleStart := 0,
    my_dstIpAddr := { ip0 := 10, ip1 := 0, ip2 := 0, ip3 := 7 }, my_dstPort := 9000 }

/-- A driver call that only reads the chip: a status check or a read of the
local-port register. -/
def DriverCall.isPortQuery : DriverCall → Bool
  | DriverCall.isClosed _ => true
  | DriverCall.read_Sn_R16 _ SnReg.W5100_Sn_PORT => true
  | _ => false

/-- A driver call that hands bytes to the driver's send. -/
def DriverCall.isSend : DriverCall → Bool
  | DriverCall.send _ _ _ _ _ => true
  | _ => false

/-- The simulated driver on a chip whose transmit memory is full: it reports
that it can transmit, and its send accepts no byte. -/
def simFullW5100 : W5100 SimHw :=
  { simW5100 with send := fun hw _ _ _ _ _ => (0, hw) }

/-! ## Status codes and reason phrases (HttpSvrDefs.h) -/

/-- The macros `HttpSvr_SC_nnn` of HttpSvrDefs.h: the code `nnn` of each macro and
the string it expands to. -/
def HttpSvr_SC_table : List (Nat × String) :=
  [(100, "100"), (101, "101"), (200, "200"), (201, "201"), (202, "202"), (203, "203"),
   (204, "204"), (205, "205"), (206, "206"), (300, "300"), (301, "301"), (302, "302"),
   (303, "303"), (304, "304"), (305, "305"), (307, "307"), (400, "400"), (401, "401"),
   (402, "402"), (403, "403"), (404, "404"), (405, "405"), (406, "406"), (407, "407"),
   (408, "408"), (409, "409"), (410, "410"), (411, "411"), (412, "412"), (413, "413"),
   (414, "414"), (415, "415"), (416, "416"), (417, "417"), (500, "500"), (501, "501"),
   (502, "502"), (503, "503"), (504, "504"), (505, "505")]

/-- The macros `HttpSvr_RP_nnn` of HttpSvrDefs.h: the code `nnn` of each macro and
the string it expands to. -/
def HttpSvr_RP_table : List (Nat × String) :=
  [(100, "Continue"), (101, "Switching Protocols"), (200, "OK"), (201, "Created"),
   (202, "Accepted"), (203, "Non-Authoritative Information"), (204, "No Content"),
   (205, "Reset Content"), (206, "Partial Content"), (300, "Multiple Choices"),
   (301, "Moved Permanently"), (302, "Found"), (303, "See Other"), (304, "Not Modified"),
   (305, "Use Proxy"), (307, "Temporary Redirect"), (400, "Bad Request"),
   (401, "Unauthorized"), (402, "Payment Required"), (403, "Forbidden"), (404, "Not Found"),
   (405, "Method Not Allowed"), (406, "Not Acceptable"),
   (407, "Proxy Authentication Required"), (408, "Rerquest Time-out"), (409, "Conflict"),
   (410, "Gone"), (411, "Length Required"), (412, "Precondition Failed"),
   (413, "Request Entity Too Large"), (414, "Request-URI too Large"),
   (415, "Unsopprted Media Type"), (416, "Requested range not satisfiable"),
   (417, "Expectation Failed"), (500, "Internal Server Error"), (501, "Not Implemented"),
   (502, "Bad Gateway"), (503, "Service Unavailable"), (504, "Gateway Time-out"),
   (505, "HTTP Version not supported")]

/-- The status codes of RFC 2616 section 6.1.1 with the reason phrase the RFC
lists for each; this table is taken from the RFC, not from the sources. -/
def rfc2616_reason_phrases : List (Nat × String) :=
  [(100, "Continue"), (101, "Switching Protocols"), (200, "OK"), (201, "Created"),
   (202, "Accepted"), (203, "Non-Authoritative Information"), (204, "No Content"),
   (205, "Reset Content"), (206, "Partial Content"), (300, "Multiple Choices"),
   (301, "Moved Permanently"), (302, "Found"), (303, "See Other"), (304, "Not Modified"),
   (305, "Use Proxy"), (307, "Temporary Redirect"), (400, "Bad Request"),
   (401, "Unauthorized"), (402, "Payment Required"), (403, "Forbidden"), (404, "Not Found"),
   (405, "Method Not Allowed"), (406, "Not Acceptable"),
   (407, "Proxy Authentication Required"), (408, "Request Time-out"), (409, "Conflict"),
   (410, "Gone"), (411, "Length Required"), (412, "Precondition Failed"),
   (413, "Request Entity Too Large"), (414, "Request-URI Too Large"),
   (415, "Unsupported Media Type"), (416, "Requested range not satisfiable"),
   (417, "Expectation Failed"), (500, "Internal Server Error"), (501, "Not Implemented"),
   (502, "Bad Gateway"), (503, "Service Unavailable"), (504, "Gateway Time-out"),
   (505, "HTTP Version not supported")]

/-- The string of the macro `HttpSvr_SC_nnn`, if the header defines it. -/
def HttpSvr_SC (nnn : Nat) : Option String := HttpSvr_SC_table.lookup nnn

/-- The string of the macro `HttpSvr_RP_nnn`, if the header defines it. -/
def HttpSvr_RP (nnn : Nat) : Option String := HttpSvr_RP_table.lookup nnn

/-- The reason phrase RFC 2616 section 6.1.1 lists for the code `nnn`. -/
def rfc2616_reason_phrase (nnn : Nat) : Option String := rfc2616_reason_phrases.lookup nnn

/-- The three decimal digits of a status code. -/
def threeDigits (nnn : Nat) : String :=
  String.mk [Nat.digitChar (nnn / 100 % 10), Nat.digitChar (nnn / 10 % 10),
    Nat.digitChar (nnn % 10)]

/-! ## Basic facts -/

theorem prv_isValidSn_of_ne (d : W5100 σ) (self : UdpPeer)
    (h : self.my_sn ≠ d.socket_undefined) : self.prv_isValidSn d = true := by
  simp [UdpPeer.prv_isValidSn, h]

theorem prv_isValidSn_of_eq (d : W5100 σ) (self : UdpPeer)
    (h : self.my_sn = d.socket_undefined) : self.prv_isValidSn d = false := by
  simp [UdpPeer.prv_isValidSn, h]

theorem u32_dec_inc (t : Nat) (h : t < U32) : ((t + U32 - 1) % U32 + 1) % U32 = t := by
  unfold U32 at *; omega

theorem u32_inc_dec (t : Nat) (h : t < U32) : ((t + 1) % U32 + U32 - 1) % U32 = t := by
  unfold U32 at *; omega

/-! ## Push-back and peek -/

/-- C1: on a bound connection with no pending byte, `unreadByte(b)` succeeds
without a driver call, the `readByte` that follows succeeds, yields `b`, makes
no driver call (the world is the one before the pair), and the read counter
after the pair is the read counter before it, for every 32-bit counter value. -/
theorem unreadByte_then_readByte (d : W5100 σ) (self : UdpPeer) (w : World σ) (b : Byte)
    (hbound : self.my_sn ≠ d.socket_undefined)
    (hnone : self.my_unreadByteAvail = false)
    (hcnt : self.my_totRead < U32) :
    ∃ s1, UdpPeer.unreadByte d self b w = (true, s1, w) ∧
      ∀ (fuel : Nat) (out : Byte), ∃ s2,
        UdpPeer.readByte d fuel s1 out w = some (true, b, s2, w) ∧
        s2.my_totRead = self.my_totRead ∧ s2.my_unreadByteAvail = false ∧
        s2.my_sn = self.my_sn := by
  have hv := prv_isValidSn_of_ne d self hbound
  refine ⟨{ self with my_unreadByte := b, my_unreadByteAvail := true,
                      my_totRead := (self.my_totRead + U32 - 1) % U32 }, ?_, ?_⟩
  · simp [UdpPeer.unreadByte, hv, hnone]
  · intro fuel out
    refine ⟨{ self with my_unreadByte := b, my_unreadByteAvail := false,
                        my_totRead := ((self.my_totRead + U32 - 1) % U32 + 1) % U32 },
      ?_, u32_dec_inc _ hcnt, rfl, rfl⟩
    simp [UdpPeer.readByte, UdpPeer.prv_isValidSn, hbound]

/-- Witness of C1: a connection bound to slot 0 whose read counter is 0. -/
theorem unreadByte_then_readByte_witness :
    ∃ s1, UdpPeer.unreadByte simW5100 (mkPeer 0 0 false 0 0) 65 (simWorld [] false true)
        = (true, s1, simWorld [] false true) ∧
      ∀ (fuel : Nat) (out : Byte), ∃ s2,
        UdpPeer.readByte simW5100 fuel s1 out (simWorld [] false true)
          = some (true, 65, s2, simWorld [] false true) ∧
        s2.my_totRead = (mkPeer 0 0 false 0 0).my_totRead ∧ s2.my_unreadByteAvail = false ∧
        s2.my_sn = (mkPeer 0 0 false 0 0).my_sn :=
  unreadByte_then_readByte simW5100 (mkPeer 0 0 false 0 0) (simWorld [] false true) 65
    (by decide) rfl (by decide)

theorem readByte_true (d : W5100 σ) (fuel : Nat) (p : UdpPeer) (c b : Byte) (w w1 : World σ)
    (s : UdpPeer) (h : UdpPeer.readByte d fuel p c w = some (true, b, s, w1)) :
    p.my_sn ≠ d.socket_undefined ∧ s.my_sn = p.my_sn ∧ s.my_unreadByteAvail = false ∧
      s.my_totRead = (p.my_totRead + 1) % U32 := by
  unfold UdpPeer.readByte at h
  by_cases hv : p.my_sn = d.socket_undefined
  · simp [UdpPeer.prv_isValidSn, hv] at h
  · simp only [UdpPeer.prv_isValidSn, hv, ne_eq, not_false_eq_true, decide_True, Bool.not_true,
      Bool.false_eq_true, if_false] at h
    by_cases ha : p.my_unreadByteAvail = true
    · simp only [ha, if_true, Option.some.injEq, Prod.mk.injEq, true_and] at h
      obtain ⟨_, hs, _⟩ := h
      subst hs
      exact ⟨hv, rfl, rfl, rfl⟩
    · simp only [ha, Bool.false_eq_true, if_false] at h
      by_cases hwait : (Hw.waitReceivePending d p.my_sn w).1 = rc_e.rc_ok
      · simp only [hwait, not_true_eq_false, if_false, Option.some.injEq, Prod.mk.injEq,
          decide_eq_true_eq] at h
        obtain ⟨hu, _, hs, _⟩ := h
        subst hs
        refine ⟨hv, rfl, ?_, ?_⟩
        · rfl
        · simp [hu]
      · simp only [hwait, not_false_eq_true, if_true] at h
        cases hc : UdpPeer.close d fuel p (Hw.waitReceivePending d p.my_sn w).2 with
        | none => simp [hc] at h
        | some r => obtain ⟨r1, r2, r3⟩ := r; simp [hc] at h

theorem peekByte_pending (d : W5100 σ) (fuel : Nat) (p : UdpPeer) (c : Byte) (w : World σ)
    (hbound : p.my_sn ≠ d.socket_undefined) (ha : p.my_unreadByteAvail = true)
    (hcnt : p.my_totRead < U32) :
    UdpPeer.peekByte d fuel p c w = some (true, p.my_unreadByte, p, w) := by
  have e : ((p.my_totRead + 1) % U32 + U32 - 1) % U32 = p.my_totRead := u32_inc_dec _ hcnt
  cases p
  simp_all [UdpPeer.peekByte, UdpPeer.readByte, UdpPeer.unreadByte, UdpPeer.prv_isValidSn]

theorem peekMany_pending (d : W5100 σ) (fuel : Nat) (p : UdpPeer) (w : World σ)
    (hbound : p.my_sn ≠ d.socket_undefined) (ha : p.my_unreadByteAvail = true)
    (hcnt : p.my_totRead < U32) (N : Nat) (c : Byte) :
    ∃ c1, peekMany d fuel N p c w
      = some (List.replicate N (true, p.my_unreadByte), c1, p, w) := by
  induction N generalizing c with
  | zero => exact ⟨c, rfl⟩
  | succ n ih =>
    obtain ⟨c1, h1⟩ := ih p.my_unreadByte
    refine ⟨c1, ?_⟩
    simp [peekMany, peekByte_pending d fuel p c w hbound ha hcnt, h1, List.replicate_succ]

theorem readByte_receive_one (d : W5100 σ) (fuel : Nat) (p : UdpPeer) (c first : Byte)
    (w : World σ) (hw2 : σ)
    (hbound : p.my_sn ≠ d.socket_undefined) (ha : p.my_unreadByteAvail = false)
    (hwait : (d.waitReceivePending w.hw p.my_sn).1 = rc_e.rc_ok)
    (hrecv : d.receive (d.waitReceivePending w.hw p.my_sn).2 p.my_sn 1 = ([first], hw2)) :
    UdpPeer.readByte d fuel p c w
      = some (true, first, { p with my_totRead := (p.my_totRead + 1) % U32 },
          { hw := hw2,
            calls := w.calls ++ [DriverCall.waitReceivePending p.my_sn,
                                 DriverCall.receive p.my_sn 1] }) := by
  simp [UdpPeer.readByte, UdpPeer.prv_isValidSn, hbound, ha, Hw.waitReceivePending, hwait,
    Hw.receive, hrecv, U16]

theorem peekByte_unchanged_counter (d : W5100 σ) (fuel : Nat) (p : UdpPeer) (c b : Byte)
    (w w1 : World σ) (s : UdpPeer) (hcnt : p.my_totRead < U32)
    (h : UdpPeer.peekByte d fuel p c w = some (true, b, s, w1)) :
    s.my_totRead = p.my_totRead := by
  unfold UdpPeer.peekByte at h
  cases hr : UdpPeer.readByte d fuel p c w with
  | none => simp [hr] at h
  | some r =>
    obtain ⟨ok, b1, s1, w2⟩ := r
    cases ok with
    | false => simp [hr] at h
    | true =>
      obtain ⟨hv, hsn, hav, htot⟩ := readByte_true d fuel p c b1 w w2 s1 hr
      have hv1 : s1.my_sn ≠ d.socket_undefined := by rw [hsn]; exact hv
      simp only [hr, UdpPeer.unreadByte, UdpPeer.prv_isValidSn, hv1, ne_eq, not_false_eq_true,
        decide_True, Bool.not_true, Bool.false_eq_true, if_false, hav, Option.some.injEq,
        Prod.mk.injEq, true_and] at h
      obtain ⟨_, hs, _⟩ := h
      subst hs
      simp only [htot]
      exact u32_inc_dec _ hcnt

/-- C2: on a bound connection that holds a pending byte, or whose driver has an
inbound byte available (waiting for receive reports ok and a one-byte receive
delivers `first`), `peekByte` called `N` times and then `readByte` once all
succeed and yield `first`; the world afterwards is `wF`, the one in which
exactly that byte has been consumed (no driver call when the byte was pending,
one wait and one one-byte receive otherwise); the read counter is one higher
than before the first peek.  Every successful `peekByte`, on any connection,
leaves the read counter unchanged. -/
theorem peekByte_many_then_readByte (d : W5100 σ) (self : UdpPeer) (w wF : World σ)
    (first : Byte) (hw2 : σ)
    (hbound : self.my_sn ≠ d.socket_undefined)
    (hcnt : self.my_totRead < U32)
    (havail :
      (self.my_unreadByteAvail = true ∧ self.my_unreadByte = first ∧ wF = w) ∨
      (self.my_unreadByteAvail = false ∧
        (d.waitReceivePending w.hw self.my_sn).1 = rc_e.rc_ok ∧
        d.receive (d.waitReceivePending w.hw self.my_sn).2 self.my_sn 1 = ([first], hw2) ∧
        wF = { hw := hw2,
               calls := w.calls ++ [DriverCall.waitReceivePending self.my_sn,
                                    DriverCall.receive self.my_sn 1] })) :
    (∀ (N fuel : Nat) (c : Byte), ∃ c1 selfN wN selfF,
      peekMany d fuel N self c w = some (List.replicate N (true, first), c1, selfN, wN) ∧
      UdpPeer.readByte d fuel selfN c1 wN = some (true, first, selfF, wF) ∧
      selfF.my_totRead = (self.my_totRead + 1) % U32 ∧
      selfF.my_unreadByteAvail = false ∧ selfF.my_sn = self.my_sn) ∧
    (∀ (fuel : Nat) (p : UdpPeer) (c b : Byte) (wp w1 : World σ) (s : UdpPeer),
      p.my_totRead < U32 → UdpPeer.peekByte d fuel p c wp = some (true, b, s, w1) →
      s.my_totRead = p.my_totRead) := by
  refine ⟨?_, fun fuel p c b wp w1 s hp h =>
    peekByte_unchanged_counter d fuel p c b wp w1 s hp h⟩
  intro N fuel c
  rcases havail with ⟨ha, hb, hw⟩ | ⟨ha, hwait, hrecv, hw⟩
  · -- the first byte is the pending one
    subst hw
    obtain ⟨c1, h1⟩ := peekMany_pending d fuel self wF hbound ha hcnt N c
    refine ⟨c1, self, wF,
      { self with my_unreadByteAvail := false, my_totRead := (self.my_totRead + 1) % U32 },
      by rw [← hb]; exact h1, ?_, rfl, rfl, rfl⟩
    simp [UdpPeer.readByte, UdpPeer.prv_isValidSn, hbound, ha, hb]
  · -- the first byte comes from the driver
    subst hw
    cases N with
    | zero =>
      exact ⟨c, self, w, { self with my_totRead := (self.my_totRead + 1) % U32 }, rfl,
        readByte_receive_one d fuel self c first w hw2 hbound ha hwait hrecv, rfl, ha, rfl⟩
    | succ n =>
      -- the first peek reads the byte and pushes it back
      have hpeek : UdpPeer.peekByte d fuel self c w
          = some (true, first,
              { self with my_unreadByte := first, my_unreadByteAvail := true },
              { hw := hw2,
                calls := w.calls ++ [DriverCall.waitReceivePending self.my_sn,
                                     DriverCall.receive self.my_sn 1] }) := by
        have e := u32_inc_dec _ hcnt
        simp [UdpPeer.peekByte, readByte_receive_one d fuel self c first w hw2 hbound ha hwait hrecv,
          UdpPeer.unreadByte, UdpPeer.prv_isValidSn, hbound, ha, e]
      obtain ⟨c1, h1⟩ := peekMany_pending d fuel
        { self with my_unreadByte := first, my_unreadByteAvail := true }
        { hw := hw2,
          calls := w.calls ++ [DriverCall.waitReceivePending self.my_sn,
                               DriverCall.receive self.my_sn 1] }
        hbound rfl hcnt n first
      refine ⟨c1, { self with my_unreadByte := first, my_unreadByteAvail := true },
        { hw := hw2,
          calls := w.calls ++ [DriverCall.waitReceivePending self.my_sn,
                               DriverCall.receive self.my_sn 1] },
        { self with my_unreadByte := first, my_unreadByteAvail := false,
                    my_totRead := (self.my_totRead + 1) % U32 }, ?_, ?_, rfl, rfl, rfl⟩
      · simp only [peekMany, hpeek, h1, List.replicate_succ]
      · simp [UdpPeer.readByte, UdpPeer.prv_isValidSn, hbound]

/-- Witness of C2: slot 0 has the datagram `72 105` waiting, the caller peeks
and then reads. -/
theorem peekByte_many_then_readByte_witness :
    (∀ (N fuel : Nat) (c : Byte), ∃ c1 selfN wN selfF,
      peekMany simW5100 fuel N (mkPeer 0 0 false 4294967295 0) c (simWorld [[72, 105]] false true)
        = some (List.replicate N (true, 72), c1, selfN, wN) ∧
      UdpPeer.readByte simW5100 fuel selfN c1 wN
        = some (true, 72, selfF,
            { hw := simChip [[105]] false true,
              calls := [DriverCall.waitReceivePending 0, DriverCall.receive 0 1] }) ∧
      selfF.my_totRead = 0 ∧
      selfF.my_unreadByteAvail = false ∧ selfF.my_sn = 0) ∧
    (∀ (fuel : Nat) (p : UdpPeer) (c b : Byte) (wp w1 : World SimHw) (s : UdpPeer),
      p.my_totRead < U32 → UdpPeer.peekByte simW5100 fuel p c wp = some (true, b, s, w1) →
      s.my_totRead = p.my_totRead) :=
  peekByte_many_then_readByte simW5100 (mkPeer 0 0 false 4294967295 0)
    (simWorld [[72, 105]] false true)
    { hw := simChip [[105]] false true,
      calls := [DriverCall.waitReceivePending 0, DriverCall.receive 0 1] }
    72 (simChip [[105]] false true) (by decide) (by decide)
    (Or.inr ⟨rfl, by decide, by decide, rfl⟩)

/-! ## Opening -/

theorem open_success_fields (d : W5100 σ) (fuel : Nat) (self : UdpPeer) (the_srcPort : Nat)
    (the_dstIpAddr : ipv4_address_t) (the_dstPort : Nat) (w w1 : World σ) (s1 : UdpPeer)
    (h : UdpPeer.open d fuel self the_srcPort the_dstIpAddr the_dstPort w = some (true, s1, w1)) :
    s1 = { self with my_sn := s1.my_sn, my_dstIpAddr := the_dstIpAddr,
                     my_dstPort := the_dstPort } := by
  unfold UdpPeer.open at h
  split at h
  · simp at h
  · split at h
    · simp only [Option.some.injEq, Prod.mk.injEq, true_and] at h
      obtain ⟨hs, _⟩ := h
      subst hs
      rfl
    · split at h
      · simp at h
      · simp at h

/-- C3 (as amended): a successful `open` writes only the slot identifier, the
destination address and the destination port; the read counter, the write
counter, the pending byte and the pending flag are what they were before the
call. -/
theorem open_success_keeps_counters (d : W5100 σ) (fuel : Nat) (self : UdpPeer)
    (the_srcPort : Nat) (the_dstIpAddr : ipv4_address_t) (the_dstPort : Nat) (w w1 : World σ)
    (s1 : UdpPeer)
    (h : UdpPeer.open d fuel self the_srcPort the_dstIpAddr the_dstPort w = some (true, s1, w1)) :
    s1.my_totRead = self.my_totRead ∧ s1.my_totWrite = self.my_totWrite ∧
      s1.my_unreadByteAvail = self.my_unreadByteAvail ∧
      s1.my_unreadByte = self.my_unreadByte ∧
      s1.my_connIdleStart = self.my_connIdleStart ∧
      s1.my_dstIpAddr = the_dstIpAddr ∧ s1.my_dstPort = the_dstPort := by
  have e := open_success_fields d fuel self the_srcPort the_dstIpAddr the_dstPort w w1 s1 h
  rw [e]
  exact ⟨rfl, rfl, rfl, rfl, rfl, rfl, rfl⟩

/-- Witness of C3 (as amended): an object that has read 7 bytes, written 5 and
holds the pushed-back byte 9 is opened on local port 8081. -/
theorem open_success_keeps_counters_witness :
    (UdpPeer.open simW5100 0 (mkPeer 255 9 true 7 5) 8081
        { ip0 := 192, ip1 := 168, ip2 := 1, ip3 := 2 } 77 (simWorld [] false true)
      = some (true,
          { mkPeer 1 9 true 7 5 with
            my_dstIpAddr := { ip0 := 192, ip1 := 168, ip2 := 1, ip3 := 2 }, my_dstPort := 77 },
          { hw := (simChip [] false true).setSlot 1 { closed := false, port := 8081, rx := [] },
            calls := [DriverCall.isClosed 0, DriverCall.read_Sn_R16 0 SnReg.W5100_Sn_PORT,
                      DriverCall.isClosed 1, DriverCall.isClosed 2, DriverCall.isClosed 3,
                      DriverCall.openUDP 0 8081, DriverCall.openUDP 1 8081] })) ∧
    (7 = (mkPeer 255 9 true 7 5).my_totRead ∧ 5 = (mkPeer 255 9 true 7 5).my_totWrite ∧
      true = (mkPeer 255 9 true 7 5).my_unreadByteAvail ∧
      (9 : Byte) = (mkPeer 255 9 true 7 5).my_unreadByte ∧
      0 = (mkPeer 255 9 true 7 5).my_connIdleStart ∧
      ({ ip0 := 192, ip1 := 168, ip2 := 1, ip3 := 2 } : ipv4_address_t)
        = { ip0 := 192, ip1 := 168, ip2 := 1, ip3 := 2 } ∧ 77 = 77) :=
  ⟨by decide,
    open_success_keeps_counters simW5100 0 (mkPeer 255 9 true 7 5) 8081
      { ip0 := 192, ip1 := 168, ip2 := 1, ip3 := 2 } 77 (simWorld [] false true)
      { hw := (simChip [] false true).setSlot 1 { closed := false, port := 8081, rx := [] },
        calls := [DriverCall.isClosed 0, DriverCall.read_Sn_R16 0 SnReg.W5100_Sn_PORT,
                  DriverCall.isClosed 1, DriverCall.isClosed 2, DriverCall.isClosed 3,
                  DriverCall.openUDP 0 8081, DriverCall.openUDP 1 8081] }
      { mkPeer 1 9 true 7 5 with
        my_dstIpAddr := { ip0 := 192, ip1 := 168, ip2 := 1, ip3 := 2 }, my_dstPort := 77 }
      (by decide)⟩

/-- C3 (counterexample to the claim as stated): an object that has read 7
bytes, written 5 and holds the pushed-back byte 9 is opened with success; its
counters are still 7 and 5 and the byte pushed back before the `open` is what
the next `readByte` returns, without a driver call. -/
theorem open_does_not_reset_counterexample :
    ∃ s1 w1,
      UdpPeer.open simW5100 0 (mkPeer 255 9 true 7 5) 8081
          { ip0 := 192, ip1 := 168, ip2 := 1, ip3 := 2 } 77 (simWorld [] false true)
        = some (true, s1, w1) ∧
      s1.my_totRead = 7 ∧ s1.my_totWrite = 5 ∧ s1.my_unreadByteAvail = true ∧
      ¬ (s1.my_totRead = 0 ∧ s1.my_totWrite = 0 ∧ s1.my_unreadByteAvail = false) ∧
      ∃ s2, UdpPeer.readByte simW5100 0 s1 0 w1 = some (true, 9, s2, w1) :=
  ⟨{ mkPeer 1 9 true 7 5 with
      my_dstIpAddr := { ip0 := 192, ip1 := 168, ip2 := 1, ip3 := 2 }, my_dstPort := 77 },
    { hw := (simChip [] false true).setSlot 1 { closed := false, port := 8081, rx := [] },
      calls := [DriverCall.isClosed 0, DriverCall.read_Sn_R16 0 SnReg.W5100_Sn_PORT,
                DriverCall.isClosed 1, DriverCall.isClosed 2, DriverCall.isClosed 3,
                DriverCall.openUDP 0 8081, DriverCall.openUDP 1 8081] },
    by decide, rfl, rfl, rfl, by decide,
    ⟨{ mkPeer 1 9 false 8 5 with
        my_dstIpAddr := { ip0 := 192, ip1 := 168, ip2 := 1, ip3 := 2 }, my_dstPort := 77 },
      by decide⟩⟩

/-! ## Flushing the output -/

theorem flushWrite_bound_returns_at_once (d : W5100 σ) (fuel : Nat) (self : UdpPeer)
    (w : World σ) (hbound : self.my_sn ≠ d.socket_undefined) :
    UdpPeer.flushWrite d fuel self w = some (self, w) := by
  simp [UdpPeer.flushWrite, UdpPeer.prv_isValidSn, hbound]

/-- C4 (the code at the failing input): a connection bound to slot 0 whose slot
has gone down, so that the driver's wait for send-completed reports an error.
`flushWrite` returns at once: it makes no driver call and the connection is
still bound to slot 0, where the claim has it wait on the driver and close
itself. -/
theorem flushWrite_bound_does_not_wait :
    (simW5100.waitSendCompleted
        { slots := [SimSlot.idle, SimSlot.idle, SimSlot.idle, SimSlot.idle],
          closeFails := false, txReady := true } 0).1 = rc_e.rc_error 4 ∧
    (mkPeer 0 0 false 0 3).prv_isValidSn simW5100 = true ∧
    UdpPeer.flushWrite simW5100 1 (mkPeer 0 0 false 0 3)
        { hw := { slots := [SimSlot.idle, SimSlot.idle, SimSlot.idle, SimSlot.idle],
                  closeFails := false, txReady := true },
          calls := [] }
      = some (mkPeer 0 0 false 0 3,
          { hw := { slots := [SimSlot.idle, SimSlot.idle, SimSlot.idle, SimSlot.idle],
                    closeFails := false, txReady := true },
            calls := [] }) := by
  decide

/-! ## The unbound connection -/

/-- Every operation other than `open` and `flushWrite` is a no-op or a failure
on an unbound connection: it returns its neutral value and leaves the object
and the world (hardware state and call log) as they were. -/
theorem unbound_operations_are_noops (d : W5100 σ) (fuel : Nat) (self : UdpPeer) (w : World σ)
    (b : Byte) (buf : Buffer) (n : Nat)
    (hunbound : self.my_sn = d.socket_undefined) :
    UdpPeer.close d fuel self w = some (true, self, w) ∧
    UdpPeer.isOpen d self w = (false, w) ∧
    UdpPeer.readByte d fuel self b w = some (false, b, self, w) ∧
    UdpPeer.readBuffer d fuel self buf n w = some (0, buf, self, w) ∧
    UdpPeer.unreadByte d self b w = (false, self, w) ∧
    UdpPeer.peekByte d fuel self b w = some (false, b, self, w) ∧
    UdpPeer.anyDataReceived d self w = (false, w) ∧
    UdpPeer.flushRead d fuel self b w = some (self, w) ∧
    UdpPeer.writeByte d fuel self b w = some (false, self, w) ∧
    UdpPeer.writeBuffer d fuel self buf n w = some (0, self, w) ∧
    UdpPeer.localPort d self w = (0, w) ∧
    UdpPeer.remotePort d self w = (0, w) := by
  have hv := prv_isValidSn_of_eq d self hunbound
  refine ⟨?_, ?_, ?_, ?_, ?_, ?_, ?_, ?_, ?_, ?_, ?_, ?_⟩
  · simp [UdpPeer.close, hv]
  · simp [UdpPeer.isOpen, hv]
  · simp [UdpPeer.readByte, hv]
  · simp [UdpPeer.readBuffer, hv]
  · simp [UdpPeer.unreadByte, hv]
  · simp [UdpPeer.peekByte, UdpPeer.readByte, hv]
  · simp [UdpPeer.anyDataReceived, hv]
  · simp [UdpPeer.flushRead, hv]
  · simp [UdpPeer.writeByte, hv]
  · simp [UdpPeer.writeBuffer, hv]
  · simp [UdpPeer.localPort, hv]
  · simp [UdpPeer.remotePort, hv]

theorem unbound_operations_are_noops_witness :
    UdpPeer.close simW5100 0 (mkPeer 255 0 false 0 0) (simWorld [] false true)
      = some (true, mkPeer 255 0 false 0 0, simWorld [] false true) :=
  (unbound_operations_are_noops simW5100 0 (mkPeer 255 0 false 0 0) (simWorld [] false true)
    0 none 0 rfl).1

/-- C5 (the code at the failing input): `flushWrite` on an unbound connection
(slot identifier `socket_undefined`, here 255) calls the driver's wait for
send-completed with the undefined slot, where the claim has it make no driver
call. -/
theorem flushWrite_unbound_calls_driver :
    (mkPeer 255 0 false 0 0).prv_isValidSn simW5100 = false ∧
    UdpPeer.flushWrite simW5100 1 (mkPeer 255 0 false 0 0) (simWorld [] false true)
      = some (mkPeer 255 0 false 0 0,
          { hw := simChip [] false true, calls := [DriverCall.waitSendCompleted 255] }) ∧
    ({ hw := simChip [] false true, calls := [DriverCall.waitSendCompleted 255] } : World SimHw)
      ≠ simWorld [] false true := by
  decide

/-! ## Push-back capacity -/

/-- C6: on a bound connection, `unreadByte(b)` with a byte already pending
returns false and changes nothing; with no byte pending it returns true, `b`
becomes the pending byte and the read counter is decremented by one modulo
`2 ^ 32`.  Neither case calls the driver. -/
theorem unreadByte_capacity_one (d : W5100 σ) (self : UdpPeer) (w : World σ) (b : Byte)
    (hbound : self.my_sn ≠ d.socket_undefined) :
    (self.my_unreadByteAvail = true → UdpPeer.unreadByte d self b w = (false, self, w)) ∧
    (self.my_unreadByteAvail = false →
      UdpPeer.unreadByte d self b w
        = (true,
            { self with my_unreadByte := b, my_unreadByteAvail := true,
                        my_totRead := (self.my_totRead + U32 - 1) % U32 }, w) ∧
      (0 < self.my_totRead → self.my_totRead < U32 →
        (self.my_totRead + U32 - 1) % U32 = self.my_totRead - 1) ∧
      (self.my_totRead = 0 → (self.my_totRead + U32 - 1) % U32 = U32 - 1)) := by
  have hv := prv_isValidSn_of_ne d self hbound
  refine ⟨fun ha => by simp [UdpPeer.unreadByte, hv, ha], fun ha => ⟨?_, ?_, ?_⟩⟩
  · simp [UdpPeer.unreadByte, hv, ha]
  · intro h0 h1; unfold U32 at *; omega
  · intro h0; unfold U32 at *; omega

/-- Witness of C6: slot 0, byte 7 already pending (refused), and the same
connection with nothing pending and read counter 12 (accepted, counter 11). -/
theorem unreadByte_capacity_one_witness :
    UdpPeer.unreadByte simW5100 (mkPeer 0 7 true 12 0) 66 (simWorld [] false true)
      = (false, mkPeer 0 7 true 12 0, simWorld [] false true) ∧
    UdpPeer.unreadByte simW5100 (mkPeer 0 7 false 12 0) 66 (simWorld [] false true)
      = (true, mkPeer 0 66 true 11 0, simWorld [] false true) :=
  ⟨(unreadByte_capacity_one simW5100 (mkPeer 0 7 true 12 0) (simWorld [] false true) 66
      (by decide)).1 rfl,
   ((unreadByte_capacity_one simW5100 (mkPeer 0 7 false 12 0) (simWorld [] false true) 66
      (by decide)).2 rfl).1⟩

/-! ## The local-port check of `open` -/

theorem open_scan_world (d : W5100 σ) (the_srcPort : Nat) (k : Nat) :
    ∀ (sn : Nat) (w : World σ),
      (UdpPeer.open_scan d the_srcPort k sn w).2.hw = w.hw ∧
      ∃ cs, (UdpPeer.open_scan d the_srcPort k sn w).2.calls = w.calls ++ cs ∧
        ∀ c ∈ cs, c.isPortQuery = true := by
  induction k with
  | zero => intro sn w; exact ⟨rfl, [], by simp [UdpPeer.open_scan], by simp⟩
  | succ k ih =>
    intro sn w
    unfold UdpPeer.open_scan
    split
    · obtain ⟨h1, cs, h2, h3⟩ := ih (sn + 1) (Hw.isClosed d (d.socket_cast sn) w).2
      refine ⟨by rw [h1]; rfl, DriverCall.isClosed (d.socket_cast sn) :: cs, ?_, ?_⟩
      · rw [h2]; simp [Hw.isClosed]
      · intro c hc
        rcases List.mem_cons.mp hc with rfl | hc
        · rfl
        · exact h3 c hc
    · split
      · refine ⟨rfl, [DriverCall.isClosed (d.socket_cast sn),
          DriverCall.read_Sn_R16 (d.socket_cast sn) SnReg.W5100_Sn_PORT], ?_, ?_⟩
        · simp [Hw.read_Sn_R16, Hw.isClosed]
        · intro c hc
          simp only [List.mem_cons, List.mem_singleton, List.not_mem_nil, or_false] at hc
          rcases hc with rfl | rfl <;> rfl
      · obtain ⟨h1, cs, h2, h3⟩ := ih (sn + 1)
          (Hw.read_Sn_R16 d (d.socket_cast sn) SnReg.W5100_Sn_PORT
            (Hw.isClosed d (d.socket_cast sn) w).2).2
        refine ⟨by rw [h1]; rfl, DriverCall.isClosed (d.socket_cast sn) ::
          DriverCall.read_Sn_R16 (d.socket_cast sn) SnReg.W5100_Sn_PORT :: cs, ?_, ?_⟩
        · rw [h2]; simp [Hw.read_Sn_R16, Hw.isClosed]
        · intro c hc
          rcases List.mem_cons.mp hc with rfl | hc
          · rfl
          · rcases List.mem_cons.mp hc with rfl | hc
            · rfl
            · exact h3 c hc

theorem open_scan_found (d : W5100 σ) (the_srcPort : Nat) (k : Nat) :
    ∀ (sn : Nat) (w : World σ) (j : Nat), j < k →
      d.isClosed w.hw (d.socket_cast (sn + j)) = false →
      d.read_Sn_R16 w.hw (d.socket_cast (sn + j)) SnReg.W5100_Sn_PORT % U16 = the_srcPort →
      (UdpPeer.open_scan d the_srcPort k sn w).1 = true := by
  induction k with
  | zero => intro sn w j hj; omega
  | succ k ih =>
    intro sn w j hj hopen hport
    unfold UdpPeer.open_scan
    cases j with
    | zero =>
      simp only [Nat.add_zero] at hopen hport
      simp [Hw.isClosed, Hw.read_Sn_R16, hopen, hport]
    | succ j =>
      have hj1 : j < k := by omega
      have e : sn + (j + 1) = sn + 1 + j := by omega
      rw [e] at hopen hport
      split
      · exact ih (sn + 1) _ j hj1 hopen hport
      · split
        · rfl
        · exact ih (sn + 1) _ j hj1 hopen hport

/-- C7: when some hardware slot that is not closed has its local-port register
equal to `the_srcPort`, `open` returns false, leaves every data member of the
object as it was, leaves the hardware state as it was, and the only driver
calls it makes are status checks and reads of the local-port register: no
`openUDP` (and no `close`) is issued on any slot. -/
theorem open_fails_when_port_in_use (d : W5100 σ) (fuel : Nat) (self : UdpPeer)
    (the_srcPort : Nat) (the_dstIpAddr : ipv4_address_t) (the_dstPort : Nat) (w : World σ)
    (sn : Nat)
    (hlo : d.socket_begin ≤ sn) (hhi : sn < d.socket_end)
    (hopen : d.isClosed w.hw (d.socket_cast sn) = false)
    (hport : d.read_Sn_R16 w.hw (d.socket_cast sn) SnReg.W5100_Sn_PORT = the_srcPort)
    (h16 : the_srcPort < U16) :
    ∃ w1 cs,
      UdpPeer.open d fuel self the_srcPort the_dstIpAddr the_dstPort w = some (false, self, w1) ∧
      w1.hw = w.hw ∧ w1.calls = w.calls ++ cs ∧
      (∀ c ∈ cs, c.isPortQuery = true) ∧
      (∀ (s : socket_e) (p : Nat), DriverCall.openUDP s p ∉ cs) ∧
      (∀ (s : socket_e), DriverCall.close s ∉ cs) := by
  have hfound : (UdpPeer.open_scan d the_srcPort (d.socket_end - d.socket_begin)
      d.socket_begin w).1 = true := by
    apply open_scan_found d the_srcPort _ d.socket_begin w (sn - d.socket_begin)
    · omega
    · rw [Nat.add_sub_cancel' hlo]; exact hopen
    · rw [Nat.add_sub_cancel' hlo, hport]; exact Nat.mod_eq_of_lt h16
  obtain ⟨h1, cs, h2, h3⟩ := open_scan_world d the_srcPort (d.socket_end - d.socket_begin)
    d.socket_begin w
  refine ⟨_, cs, by simp [UdpPeer.open, hfound], h1, h2, h3, ?_, ?_⟩
  · intro s p hm
    have := h3 _ hm
    simp [DriverCall.isPortQuery] at this
  · intro s hm
    have := h3 _ hm
    simp [DriverCall.isPortQuery] at this

/-- Witness of C7: slot 0 is bound to local port 8080 and a second object asks
for the same local port. -/
theorem open_fails_when_port_in_use_witness :
    ∃ w1 cs,
      UdpPeer.open simW5100 0 (mkPeer 255 0 false 0 0) 8080
          { ip0 := 192, ip1 := 168, ip2 := 1, ip3 := 2 } 77 (simWorld [] false true)
        = some (false, mkPeer 255 0 false 0 0, w1) ∧
      w1.hw = (simWorld [] false true).hw ∧ w1.calls = (simWorld [] false true).calls ++ cs ∧
      (∀ c ∈ cs, c.isPortQuery = true) ∧
      (∀ (s : socket_e) (p : Nat), DriverCall.openUDP s p ∉ cs) ∧
      (∀ (s : socket_e), DriverCall.close s ∉ cs) :=
  open_fails_when_port_in_use simW5100 0 (mkPeer 255 0 false 0 0) 8080
    { ip0 := 192, ip1 := 168, ip2 := 1, ip3 := 2 } 77 (simWorld [] false true) 0
    (by decide) (by decide) (by decide) (by decide) (by decide)

/-! ## Closing -/

theorem close_loop_zero (d : W5100 σ) (sn : socket_e) (w : World σ) :
    UdpPeer.close_loop d sn 0 w
      = if (Hw.isClosed d sn w).1 then some (true, (Hw.isClosed d sn w).2) else none := by
  rw [UdpPeer.close_loop]

theorem close_loop_succ (d : W5100 σ) (sn : socket_e) (n : Nat) (w : World σ) :
    UdpPeer.close_loop d sn (n + 1) w
      = if (Hw.isClosed d sn w).1 then some (true, (Hw.isClosed d sn w).2)
        else if (Hw.close d sn (Hw.isClosed d sn w).2).1 ≠ rc_e.rc_ok then
          some (false, (Hw.close d sn (Hw.isClosed d sn w).2).2)
        else UdpPeer.close_loop d sn n (Hw.close d sn (Hw.isClosed d sn w).2).2 := by
  rw [UdpPeer.close_loop]

theorem close_loop_calls (d : W5100 σ) (sn : socket_e) (fuel : Nat) :
    ∀ (w w1 : World σ) (r : Bool), UdpPeer.close_loop d sn fuel w = some (r, w1) →
      ∃ cs, w1.calls = w.calls ++ cs ∧
        ∀ c ∈ cs, c = DriverCall.isClosed sn ∨ c = DriverCall.close sn := by
  induction fuel with
  | zero =>
    intro w w1 r h
    rw [close_loop_zero] at h
    split_ifs at h
    simp only [Option.some.injEq, Prod.mk.injEq] at h
    obtain ⟨_, rfl⟩ := h
    exact ⟨[DriverCall.isClosed sn], rfl, by simp⟩
  | succ n ih =>
    intro w w1 r h
    rw [close_loop_succ] at h
    split_ifs at h
    · simp only [Option.some.injEq, Prod.mk.injEq] at h
      obtain ⟨_, rfl⟩ := h
      exact ⟨[DriverCall.isClosed sn], rfl, by simp⟩
    · simp only [Option.some.injEq, Prod.mk.injEq] at h
      obtain ⟨_, rfl⟩ := h
      exact ⟨[DriverCall.isClosed sn, DriverCall.close sn], by simp [Hw.close, Hw.isClosed],
        by simp⟩
    · obtain ⟨cs, h1, h2⟩ := ih _ w1 r h
      refine ⟨DriverCall.isClosed sn :: DriverCall.close sn :: cs, ?_, ?_⟩
      · rw [h1]; simp [Hw.close, Hw.isClosed]
      · intro c hc
        rcases List.mem_cons.mp hc with rfl | hc
        · exact Or.inl rfl
        · rcases List.mem_cons.mp hc with rfl | hc
          · exact Or.inr rfl
          · exact h2 c hc

theorem close_result (d : W5100 σ) (fuel : Nat) (self s1 : UdpPeer) (w w1 : World σ) (r : Bool)
    (h : UdpPeer.close d fuel self w = some (r, s1, w1)) :
    s1 = (if r then { self with my_sn := d.socket_undefined } else self) ∧
      ∃ cs, w1.calls = w.calls ++ cs ∧
        ∀ c ∈ cs, c = DriverCall.isClosed self.my_sn ∨ c = DriverCall.close self.my_sn := by
  unfold UdpPeer.close at h
  by_cases hv : self.my_sn = d.socket_undefined
  · simp only [UdpPeer.prv_isValidSn, hv, ne_eq, not_true_eq_false, decide_False, Bool.not_false,
      if_true, Option.some.injEq, Prod.mk.injEq] at h
    obtain ⟨rfl, rfl, rfl⟩ := h
    refine ⟨?_, [], by simp, by simp⟩
    cases self
    simp_all
  · simp only [UdpPeer.prv_isValidSn, hv, ne_eq, not_false_eq_true, decide_True, Bool.not_true,
      Bool.false_eq_true, if_false] at h
    cases hl : UdpPeer.close_loop d self.my_sn fuel w with
    | none => simp [hl] at h
    | some p =>
      obtain ⟨r0, w0⟩ := p
      have hc := close_loop_calls d self.my_sn fuel w w0 r0 hl
      cases r0 with
      | false =>
        simp only [hl, Option.some.injEq, Prod.mk.injEq] at h
        obtain ⟨rfl, rfl, rfl⟩ := h
        exact ⟨by simp, hc⟩
      | true =>
        simp only [hl, Option.some.injEq, Prod.mk.injEq] at h
        obtain ⟨rfl, rfl, rfl⟩ := h
        exact ⟨by simp, hc⟩

/-- A bound connection whose slot is already closed, or whose slot the driver's
close command closes, is unbound by `close` as soon as the loop may run once. -/
theorem close_returns_when_driver_closes (d : W5100 σ) (fuel : Nat) (self : UdpPeer)
    (w : World σ) (hbound : self.my_sn ≠ d.socket_undefined)
    (hdrv : d.isClosed w.hw self.my_sn = true ∨
      ((d.close w.hw self.my_sn).1 = rc_e.rc_ok ∧
        d.isClosed (d.close w.hw self.my_sn).2 self.my_sn = true)) :
    ∃ w1, UdpPeer.close d (fuel + 1) self w
      = some (true, { self with my_sn := d.socket_undefined }, w1) := by
  by_cases hc : d.isClosed w.hw self.my_sn = true
  · exact ⟨(Hw.isClosed d self.my_sn w).2,
      by simp [UdpPeer.close, UdpPeer.prv_isValidSn, hbound, close_loop_succ, Hw.isClosed, hc]⟩
  · rcases hdrv with h | ⟨h1, h2⟩
    · exact absurd h hc
    · refine ⟨(Hw.isClosed d self.my_sn (Hw.close d self.my_sn (Hw.isClosed d self.my_sn w).2).2).2,
        ?_⟩
      cases fuel <;>
        simp [UdpPeer.close, UdpPeer.prv_isValidSn, hbound, close_loop_succ, close_loop_zero,
          Hw.isClosed, Hw.close, hc, h1, h2]

/-- A bound connection stays bound when the driver's close command reports an
error: `close` returns false. -/
theorem close_fails_when_driver_errors (d : W5100 σ) (fuel : Nat) (self : UdpPeer)
    (w : World σ) (hbound : self.my_sn ≠ d.socket_undefined)
    (hopen : d.isClosed w.hw self.my_sn = false)
    (herr : (d.close w.hw self.my_sn).1 ≠ rc_e.rc_ok) :
    ∃ w1, UdpPeer.close d (fuel + 1) self w = some (false, self, w1) := by
  refine ⟨(Hw.close d self.my_sn (Hw.isClosed d self.my_sn w).2).2, ?_⟩
  simp [UdpPeer.close, UdpPeer.prv_isValidSn, hbound, close_loop_succ, Hw.isClosed,
    Hw.close, hopen, herr]

/-- C8: `close` is idempotent.  On an unbound connection it returns true and
leaves the object and the world (hardware state and call log) as they were;
whenever `close` returns true the object is unbound afterwards, and a second
`close` returns true again and changes neither the object nor the world. -/
theorem close_idempotent (d : W5100 σ) (fuel : Nat) (self : UdpPeer) (w : World σ) :
    (self.my_sn = d.socket_undefined → UdpPeer.close d fuel self w = some (true, self, w)) ∧
    (∀ (s1 : UdpPeer) (w1 : World σ), UdpPeer.close d fuel self w = some (true, s1, w1) →
      s1.my_sn = d.socket_undefined ∧
      ∀ fuel2 : Nat, UdpPeer.close d fuel2 s1 w1 = some (true, s1, w1)) := by
  refine ⟨fun hu => by simp [UdpPeer.close, UdpPeer.prv_isValidSn, hu], ?_⟩
  intro s1 w1 h
  obtain ⟨hs, _⟩ := close_result d fuel self s1 w w1 true h
  have hu : s1.my_sn = d.socket_undefined := by rw [hs]; rfl
  exact ⟨hu, fun fuel2 => by simp [UdpPeer.close, UdpPeer.prv_isValidSn, hu]⟩

/-- Witness of C8: a connection bound to slot 0 is closed (the driver closes
the slot), then closed again. -/
theorem close_idempotent_witness :
    UdpPeer.close simW5100 1 (mkPeer 0 0 false 3 4) (simWorld [[1]] false true)
      = some (true, mkPeer 255 0 false 3 4,
          { hw := (simChip [[1]] false true).setSlot 0 SimSlot.idle,
            calls := [DriverCall.isClosed 0, DriverCall.close 0, DriverCall.isClosed 0] }) ∧
    (mkPeer 255 0 false 3 4).my_sn = simW5100.socket_undefined ∧
    ∀ fuel2 : Nat,
      UdpPeer.close simW5100 fuel2 (mkPeer 255 0 false 3 4)
          { hw := (simChip [[1]] false true).setSlot 0 SimSlot.idle,
            calls := [DriverCall.isClosed 0, DriverCall.close 0, DriverCall.isClosed 0] }
        = some (true, mkPeer 255 0 false 3 4,
            { hw := (simChip [[1]] false true).setSlot 0 SimSlot.idle,
              calls := [DriverCall.isClosed 0, DriverCall.close 0, DriverCall.isClosed 0] }) :=
  ⟨by decide,
    (close_idempotent simW5100 1 (mkPeer 0 0 false 3 4) (simWorld [[1]] false true)).2
      (mkPeer 255 0 false 3 4)
      { hw := (simChip [[1]] false true).setSlot 0 SimSlot.idle,
        calls := [DriverCall.isClosed 0, DriverCall.close 0, DriverCall.isClosed 0] }
      (by decide)⟩

/-! ## Reading one byte from the driver -/

/-- C9 (as amended): on a bound connection with no pending byte.  When the
driver's wait-for-receive reports an error, `readByte` runs `close()` and
returns false with the referenced byte and the read counter untouched; the
connection is unbound afterwards when that `close()` returned true (which it
does when the slot is closed or the driver's close command closes it) and is
still bound when it returned false (which it does when the driver's close
command reports an error).  When the wait reports ok, `readByte` asks the
driver for exactly one byte: if the driver delivers exactly one byte,
`readByte` returns true with that byte and the read counter is one higher; if
the driver delivers none, `readByte` returns false and nothing but the world
changes. -/
theorem readByte_from_driver (d : W5100 σ) (fuel : Nat) (self : UdpPeer) (out : Byte)
    (w : World σ)
    (hbound : self.my_sn ≠ d.socket_undefined)
    (hnone : self.my_unreadByteAvail = false)
    (hcnt : self.my_totRead < U32) :
    ((d.waitReceivePending w.hw self.my_sn).1 ≠ rc_e.rc_ok →
      UdpPeer.readByte d fuel self out w
        = (UdpPeer.close d fuel self (Hw.waitReceivePending d self.my_sn w).2).map
            (fun r => (false, out, r.2.1, r.2.2)) ∧
      (∀ (r : Bool) (s1 : UdpPeer) (w1 : World σ),
        UdpPeer.close d fuel self (Hw.waitReceivePending d self.my_sn w).2 = some (r, s1, w1) →
        s1.my_totRead = self.my_totRead ∧
        (r = true → s1.my_sn = d.socket_undefined) ∧ (r = false → s1 = self)) ∧
      ((d.isClosed (d.waitReceivePending w.hw self.my_sn).2 self.my_sn = true ∨
          ((d.close (d.waitReceivePending w.hw self.my_sn).2 self.my_sn).1 = rc_e.rc_ok ∧
            d.isClosed (d.close (d.waitReceivePending w.hw self.my_sn).2 self.my_sn).2
              self.my_sn = true)) →
        ∃ w1, UdpPeer.readByte d (fuel + 1) self out w
          = some (false, out, { self with my_sn := d.socket_undefined }, w1)) ∧
      (d.isClosed (d.waitReceivePending w.hw self.my_sn).2 self.my_sn = false →
        (d.close (d.waitReceivePending w.hw self.my_sn).2 self.my_sn).1 ≠ rc_e.rc_ok →
        ∃ w1, UdpPeer.readByte d (fuel + 1) self out w = some (false, out, self, w1))) ∧
    ((d.waitReceivePending w.hw self.my_sn).1 = rc_e.rc_ok →
      (∀ (b : Byte) (hw2 : σ),
        d.receive (d.waitReceivePending w.hw self.my_sn).2 self.my_sn 1 = ([b], hw2) →
        UdpPeer.readByte d fuel self out w
          = some (true, b, { self with my_totRead := (self.my_totRead + 1) % U32 },
              { hw := hw2,
                calls := w.calls ++ [DriverCall.waitReceivePending self.my_sn,
                                     DriverCall.receive self.my_sn 1] })) ∧
      (∀ (hw2 : σ),
        d.receive (d.waitReceivePending w.hw self.my_sn).2 self.my_sn 1 = ([], hw2) →
        UdpPeer.readByte d fuel self out w
          = some (false, out, self,
              { hw := hw2,
                calls := w.calls ++ [DriverCall.waitReceivePending self.my_sn,
                                     DriverCall.receive self.my_sn 1] }))) := by
  have hv := prv_isValidSn_of_ne d self hbound
  have hread : ∀ fuel0 : Nat, (d.waitReceivePending w.hw self.my_sn).1 ≠ rc_e.rc_ok →
      UdpPeer.readByte d fuel0 self out w
        = (UdpPeer.close d fuel0 self (Hw.waitReceivePending d self.my_sn w).2).map
            (fun r => (false, out, r.2.1, r.2.2)) := by
    intro fuel0 hwait
    simp only [UdpPeer.readByte, hv, hnone, Hw.waitReceivePending, hwait, Bool.not_true,
      Bool.false_eq_true, if_false, ne_eq, not_false_eq_true, if_true]
    cases UdpPeer.close d fuel0 self
      { hw := (d.waitReceivePending w.hw self.my_sn).2,
        calls := w.calls ++ [DriverCall.waitReceivePending self.my_sn] } with
    | none => rfl
    | some r => rfl
  refine ⟨fun hwait => ⟨hread fuel hwait, ?_, ?_, ?_⟩, fun hwait => ⟨?_, ?_⟩⟩
  · intro r s1 w1 hc
    obtain ⟨hs, _⟩ := close_result d fuel self s1 _ w1 r hc
    cases r with
    | false =>
      simp only [Bool.false_eq_true, if_false] at hs
      subst hs
      exact ⟨rfl, (fun h => by cases h), (fun _ => rfl)⟩
    | true =>
      simp only [if_true] at hs
      subst hs
      exact ⟨rfl, (fun _ => rfl), (fun h => by cases h)⟩
  · intro hdrv
    obtain ⟨w1, hc⟩ := close_returns_when_driver_closes d fuel self
      (Hw.waitReceivePending d self.my_sn w).2 hbound hdrv
    exact ⟨w1, by rw [hread (fuel + 1) hwait, hc]; rfl⟩
  · intro hopen herr
    obtain ⟨w1, hc⟩ := close_fails_when_driver_errors d fuel self
      (Hw.waitReceivePending d self.my_sn w).2 hbound hopen herr
    exact ⟨w1, by rw [hread (fuel + 1) hwait, hc]; rfl⟩
  · intro b hw2 hrecv
    exact readByte_receive_one d fuel self out b w hw2 hbound hnone hwait hrecv
  · intro hw2 hrecv
    have e : self.my_totRead % U32 = self.my_totRead := Nat.mod_eq_of_lt hcnt
    simp only [UdpPeer.readByte, hv, hnone, Hw.waitReceivePending, hwait, Hw.receive, hrecv,
      List.length_nil, Nat.zero_mod, Nat.add_zero, e, List.headD_nil, Bool.not_true,
      Bool.false_eq_true, if_false, ne_eq, not_true_eq_false, zero_ne_one, decide_False,
      List.append_assoc, List.singleton_append]
    clear hread
    cases self
    simp_all

/-- Witness of C9 (as amended), on a connection bound to slot 0 with no pending
byte.  First: the datagram `72 105` is waiting, the wait reports ok and the
one-byte receive delivers 72.  Second: nothing is waiting, the wait reports an
error and the driver's close command closes the slot. -/
theorem readByte_from_driver_witness :
    UdpPeer.readByte simW5100 1 (mkPeer 0 0 false 7 0) 0 (simWorld [[72, 105]] false true)
      = some (true, 72, mkPeer 0 0 false 8 0,
          { hw := simChip [[105]] false true,
            calls := [DriverCall.waitReceivePending 0, DriverCall.receive 0 1] }) ∧
    ∃ w1, UdpPeer.readByte simW5100 1 (mkPeer 0 0 false 7 0) 0 (simWorld [] false true)
      = some (false, 0, mkPeer 255 0 false 7 0, w1) :=
  ⟨((readByte_from_driver simW5100 1 (mkPeer 0 0 false 7 0) 0 (simWorld [[72, 105]] false true)
      (by decide) rfl (by decide)).2 (by decide)).1 72 (simChip [[105]] false true) (by decide),
   ((readByte_from_driver simW5100 0 (mkPeer 0 0 false 7 0) 0 (simWorld [] false true)
      (by decide) rfl (by decide)).1 (by decide)).2.2.1 (Or.inr ⟨by decide, by decide⟩)⟩

/-- C9 (counterexample to the claim as stated), two inputs on a connection
bound to slot 0 with no pending byte.  First: nothing is waiting, the wait
reports an error and the driver's close command reports an error as well;
`readByte` returns false and the connection is still bound to slot 0, it has
not closed itself.  Second: an empty datagram is waiting, the wait reports ok
and the one-byte receive delivers no byte; `readByte` returns false and the
read counter is unchanged, where the claim has it return true with the counter
one higher. -/
theorem readByte_from_driver_counterexample :
    ((simW5100.waitReceivePending (simChip [] true true) 0).1 ≠ rc_e.rc_ok ∧
      UdpPeer.readByte simW5100 1 (mkPeer 0 0 false 7 0) 0 (simWorld [] true true)
        = some (false, 0, mkPeer 0 0 false 7 0,
            { hw := simChip [] true true,
              calls := [DriverCall.waitReceivePending 0, DriverCall.isClosed 0,
                        DriverCall.close 0] }) ∧
      (mkPeer 0 0 false 7 0).prv_isValidSn simW5100 = true) ∧
    ((simW5100.waitReceivePending (simChip [[]] false true) 0).1 = rc_e.rc_ok ∧
      UdpPeer.readByte simW5100 1 (mkPeer 0 0 false 7 0) 0 (simWorld [[]] false true)
        = some (false, 0, mkPeer 0 0 false 7 0,
            { hw := simChip [] false true,
              calls := [DriverCall.waitReceivePending 0, DriverCall.receive 0 1] })) := by
  decide

/-! ## Writing when the driver cannot transmit -/

/-- C10 (as amended): on a bound connection on which the driver reports that
it cannot transmit, `writeByte` and `writeBuffer` run `close()` and return
false and 0; the object and the world they leave are the ones `close()`
leaves.  No byte is handed to the driver's send (the calls made are the
transmit check and the status checks and close commands of `close()`), the
write counter is unchanged, and the connection is unbound afterwards when that
`close()` returned true (which it does when the slot is closed or the driver's
close command closes it); it is still bound when `close()` returned false
(which it does when the driver's close command reports an error). -/
theorem write_when_cannot_transmit (d : W5100 σ) (fuel : Nat) (self : UdpPeer)
    (the_byte : Byte) (the_buffer : Buffer) (the_size : Nat) (w : World σ)
    (hbound : self.my_sn ≠ d.socket_undefined)
    (hcant : d.canTransmitData w.hw self.my_sn = false) :
    UdpPeer.writeByte d fuel self the_byte w
      = (UdpPeer.close d fuel self (Hw.canTransmitData d self.my_sn w).2).map
          (fun r => (false, r.2.1, r.2.2)) ∧
    UdpPeer.writeBuffer d fuel self the_buffer the_size w
      = (UdpPeer.close d fuel self (Hw.canTransmitData d self.my_sn w).2).map
          (fun r => (0, r.2.1, r.2.2)) ∧
    (∀ (r : Bool) (s1 : UdpPeer) (w1 : World σ),
      UdpPeer.close d fuel self (Hw.canTransmitData d self.my_sn w).2 = some (r, s1, w1) →
      s1.my_totWrite = self.my_totWrite ∧
      (∃ cs, w1.calls = w.calls ++ cs ∧ ∀ c ∈ cs, c.isSend = false) ∧
      (r = true → s1.my_sn = d.socket_undefined) ∧ (r = false → s1 = self)) ∧
    ((d.isClosed w.hw self.my_sn = true ∨
        ((d.close w.hw self.my_sn).1 = rc_e.rc_ok ∧
          d.isClosed (d.close w.hw self.my_sn).2 self.my_sn = true)) →
      ∃ w1, UdpPeer.close d (fuel + 1) self (Hw.canTransmitData d self.my_sn w).2
        = some (true, { self with my_sn := d.socket_undefined }, w1)) ∧
    (d.isClosed w.hw self.my_sn = false → (d.close w.hw self.my_sn).1 ≠ rc_e.rc_ok →
      ∃ w1, UdpPeer.close d (fuel + 1) self (Hw.canTransmitData d self.my_sn w).2
        = some (false, self, w1)) := by
  have hv := prv_isValidSn_of_ne d self hbound
  refine ⟨?_, ?_, ?_, ?_, ?_⟩
  · simp only [UdpPeer.writeByte, hv, Hw.canTransmitData, hcant, Bool.not_true, Bool.not_false,
      Bool.false_eq_true, if_false, if_true]
    cases UdpPeer.close d fuel self
      { hw := w.hw, calls := w.calls ++ [DriverCall.canTransmitData self.my_sn] } with
    | none => rfl
    | some r => rfl
  · simp only [UdpPeer.writeBuffer, hv, Hw.canTransmitData, hcant, Bool.not_true, Bool.not_false,
      Bool.false_eq_true, if_false, if_true]
    cases UdpPeer.close d fuel self
      { hw := w.hw, calls := w.calls ++ [DriverCall.canTransmitData self.my_sn] } with
    | none => rfl
    | some r => rfl
  · intro r s1 w1 hc
    obtain ⟨hs, cs, h1, h2⟩ := close_result d fuel self s1 _ w1 r hc
    have hcalls : ∃ cs, w1.calls = w.calls ++ cs ∧ ∀ c ∈ cs, c.isSend = false := by
      refine ⟨DriverCall.canTransmitData self.my_sn :: cs, ?_, ?_⟩
      · rw [h1]; simp [Hw.canTransmitData]
      · intro c hm
        rcases List.mem_cons.mp hm with rfl | hm
        · rfl
        · rcases h2 c hm with rfl | rfl <;> rfl
    cases r with
    | false =>
      simp only [Bool.false_eq_true, if_false] at hs
      subst hs
      exact ⟨rfl, hcalls, (fun h => by cases h), (fun _ => rfl)⟩
    | true =>
      simp only [if_true] at hs
      subst hs
      exact ⟨rfl, hcalls, (fun _ => rfl), (fun h => by cases h)⟩
  · intro hdrv
    exact close_returns_when_driver_closes d fuel self (Hw.canTransmitData d self.my_sn w).2
      hbound hdrv
  · intro hopen herr
    exact close_fails_when_driver_errors d fuel self (Hw.canTransmitData d self.my_sn w).2
      hbound hopen herr

/-- Witness of C10 (as amended): slot 0 is bound, the transmit buffer has no
room, and the driver's close command closes the slot. -/
theorem write_when_cannot_transmit_witness :
    UdpPeer.writeByte simW5100 1 (mkPeer 0 0 false 0 5) 65 (simWorld [] false false)
      = some (false, mkPeer 255 0 false 0 5,
          { hw := (simChip [] false false).setSlot 0 SimSlot.idle,
            calls := [DriverCall.canTransmitData 0, DriverCall.isClosed 0, DriverCall.close 0,
                      DriverCall.isClosed 0] }) ∧
    UdpPeer.writeBuffer simW5100 1 (mkPeer 0 0 false 0 5) (some [65, 66]) 2
        (simWorld [] false false)
      = some (0, mkPeer 255 0 false 0 5,
          { hw := (simChip [] false false).setSlot 0 SimSlot.idle,
            calls := [DriverCall.canTransmitData 0, DriverCall.isClosed 0, DriverCall.close 0,
                      DriverCall.isClosed 0] }) :=
  ⟨(write_when_cannot_transmit simW5100 1 (mkPeer 0 0 false 0 5) 65 (some [65, 66]) 2
      (simWorld [] false false) (by decide) (by decide)).1.trans (by decide),
   (write_when_cannot_transmit simW5100 1 (mkPeer 0 0 false 0 5) 65 (some [65, 66]) 2
      (simWorld [] false false) (by decide) (by decide)).2.1.trans (by decide)⟩

/-- C10 (counterexample to the claim as stated): a connection bound to slot 0,
the driver reports that it cannot transmit, and the driver's close command
reports an error.  `writeByte` returns false and `writeBuffer` returns 0 with
no send and the write counter unchanged, but the connection is still bound to
slot 0 when the call returns. -/
theorem write_when_cannot_transmit_counterexample :
    simW5100.canTransmitData (simChip [] true false) 0 = false ∧
    UdpPeer.writeByte simW5100 1 (mkPeer 0 0 false 0 5) 65 (simWorld [] true false)
      = some (false, mkPeer 0 0 false 0 5,
          { hw := simChip [] true false,
            calls := [DriverCall.canTransmitData 0, DriverCall.isClosed 0,
                      DriverCall.close 0] }) ∧
    UdpPeer.writeBuffer simW5100 1 (mkPeer 0 0 false 0 5) (some [65, 66]) 2
        (simWorld [] true false)
      = some (0, mkPeer 0 0 false 0 5,
          { hw := simChip [] true false,
            calls := [DriverCall.canTransmitData 0, DriverCall.isClosed 0,
                      DriverCall.close 0] }) ∧
    (mkPeer 0 0 false 0 5).prv_isValidSn simW5100 = true ∧
    (mkPeer 0 0 false 0 5).my_sn ≠ simW5100.socket_undefined := by
  decide

/-! ## Writing when the driver can transmit -/

/-- C11: on a bound connection on which the driver can transmit, `writeBuffer`
hands the buffer and the length to the driver's send once, returns the number
of bytes `k` that send accepted (as a `uint16_t`) and adds exactly `k` to the
write counter modulo `2 ^ 32`; `writeByte` hands one byte to send, and it
returns true with the write counter one higher (modulo `2 ^ 32`) when send
accepted one byte, false with the object unchanged otherwise. -/
theorem write_counts_accepted_bytes (d : W5100 σ) (fuel : Nat) (self : UdpPeer)
    (the_byte : Byte) (the_buffer : Buffer) (the_size : Nat) (w : World σ)
    (hbound : self.my_sn ≠ d.socket_undefined)
    (hcan : d.canTransmitData w.hw self.my_sn = true) :
    (UdpPeer.writeBuffer d fuel self the_buffer the_size w
      = some ((d.send w.hw self.my_sn self.my_dstIpAddr self.my_dstPort the_buffer the_size).1
                % U16,
          { self with
            my_totWrite := (self.my_totWrite +
              (d.send w.hw self.my_sn self.my_dstIpAddr self.my_dstPort the_buffer the_size).1
                % U16) % U32 },
          { hw := (d.send w.hw self.my_sn self.my_dstIpAddr self.my_dstPort the_buffer
                    the_size).2,
            calls := w.calls ++ [DriverCall.canTransmitData self.my_sn,
              DriverCall.send self.my_sn self.my_dstIpAddr self.my_dstPort the_buffer
                the_size] })) ∧
    ((d.send w.hw self.my_sn self.my_dstIpAddr self.my_dstPort the_buffer the_size).1 < U16 →
      (d.send w.hw self.my_sn self.my_dstIpAddr self.my_dstPort the_buffer the_size).1 % U16
        = (d.send w.hw self.my_sn self.my_dstIpAddr self.my_dstPort the_buffer the_size).1) ∧
    (∃ (r : Bool) (s1 : UdpPeer),
      UdpPeer.writeByte d fuel self the_byte w
        = some (r, s1,
            { hw := (d.send w.hw self.my_sn self.my_dstIpAddr self.my_dstPort
                      (some [the_byte]) 1).2,
              calls := w.calls ++ [DriverCall.canTransmitData self.my_sn,
                DriverCall.send self.my_sn self.my_dstIpAddr self.my_dstPort
                  (some [the_byte]) 1] }) ∧
      (r = true ↔
        (d.send w.hw self.my_sn self.my_dstIpAddr self.my_dstPort (some [the_byte]) 1).1
          % U16 = 1) ∧
      (r = true → s1 = { self with my_totWrite := (self.my_totWrite + 1) % U32 }) ∧
      (r = false → s1 = self)) := by
  have hv := prv_isValidSn_of_ne d self hbound
  refine ⟨?_, fun h => Nat.mod_eq_of_lt h, ?_⟩
  · simp [UdpPeer.writeBuffer, hv, Hw.canTransmitData, hcan, Hw.send]
  · by_cases h1 : (d.send w.hw self.my_sn self.my_dstIpAddr self.my_dstPort
        (some [the_byte]) 1).1 % U16 = 1
    · refine ⟨true, { self with my_totWrite := (self.my_totWrite + 1) % U32 }, ?_, ?_, ?_, ?_⟩
      · simp [UdpPeer.writeByte, hv, Hw.canTransmitData, hcan, Hw.send, h1]
      · simp [h1]
      · intro _; rfl
      · intro h; cases h
    · refine ⟨false, self, ?_, ?_, ?_, ?_⟩
      · simp [UdpPeer.writeByte, hv, Hw.canTransmitData, hcan, Hw.send, h1]
      · simp [h1]
      · intro h; cases h
      · intro _; rfl

/-- Witness of C11: slot 0 is bound and the chip can transmit; two bytes are
written with `writeBuffer`, on a write counter of `2 ^ 32 - 1`. -/
theorem write_counts_accepted_bytes_witness :
    UdpPeer.writeBuffer simW5100 0 (mkPeer 0 0 false 0 4294967295) (some [65, 66]) 2
        (simWorld [] false true)
      = some (2, mkPeer 0 0 false 0 1,
          { hw := simChip [] false true,
            calls := [DriverCall.canTransmitData 0,
              DriverCall.send 0 { ip0 := 10, ip1 := 0, ip2 := 0, ip3 := 7 } 9000
                (some [65, 66]) 2] }) :=
  (write_counts_accepted_bytes simW5100 0 (mkPeer 0 0 false 0 4294967295) 65 (some [65, 66]) 2
    (simWorld [] false true) (by decide) (by decide)).1

/-! ## The idle timeout -/

/-- C13: after `triggerConnTimeout()` at the 32-bit clock value `t`,
`connTimeoutExpired()` at the clock value `n` returns true exactly when the
elapsed time `(n - t) mod 2 ^ 32` is more than 5000; in particular it returns
false at `n = t` and true whenever more than 5000 time-units have elapsed, also
when the clock has wrapped around between the two calls. -/
theorem connTimeout_after_trigger (self : UdpPeer) (t n : Nat)
    (ht : t < U32) (hn : n < U32) :
    (self.triggerConnTimeout t).connTimeoutExpired t = false ∧
    ((((n : Int) - (t : Int)) % 4294967296 > 5000) →
      (self.triggerConnTimeout t).connTimeoutExpired n = true) ∧
    ((self.triggerConnTimeout t).connTimeoutExpired n = true ↔
      ((n : Int) - (t : Int)) % 4294967296 > 5000) := by
  have key : (self.triggerConnTimeout t).connTimeoutExpired n = true ↔
      ((n : Int) - (t : Int)) % 4294967296 > 5000 := by
    simp only [UdpPeer.connTimeoutExpired, UdpPeer.triggerConnTimeout, decide_eq_true_eq]
    unfold U32 at *
    omega
  refine ⟨?_, key.mpr, key⟩
  simp only [UdpPeer.connTimeoutExpired, UdpPeer.triggerConnTimeout, decide_eq_false_iff_not]
  unfold U32 at *
  omega

/-- Witness of C13: the timeout is triggered 1000 time-units before the clock
wraps around; it has not expired at once, and it has expired 4001 time-units
after the wrap (5001 time-units after the trigger). -/
theorem connTimeout_after_trigger_witness :
    ((mkPeer 0 0 false 0 0).triggerConnTimeout 4294966296).connTimeoutExpired 4294966296
      = false ∧
    ((mkPeer 0 0 false 0 0).triggerConnTimeout 4294966296).connTimeoutExpired 4001 = true :=
  ⟨(connTimeout_after_trigger (mkPeer 0 0 false 0 0) 4294966296 4001
      (by decide) (by decide)).1,
   (connTimeout_after_trigger (mkPeer 0 0 false 0 0) 4294966296 4001
      (by decide) (by decide)).2.1 (by decide)⟩

/-! ## Bulk read -/

theorem storeAt_cons_succ (x : Byte) (data : List Byte) :
    ∀ (xs : List Byte) (off : Nat),
      storeAt (x :: xs) (off + 1) data = x :: storeAt xs off data := by
  induction data with
  | nil => intro xs off; rfl
  | cons y ys ih =>
    intro xs off
    simp only [storeAt, List.set_cons_succ]
    exact ih (xs.set off y) (off + 1)

theorem readBuffer_wait_ok (d : W5100 σ) (fuel : Nat) (self : UdpPeer) (buf : List Byte)
    (the_size : Nat) (w : World σ)
    (hbound : self.my_sn ≠ d.socket_undefined) (hsize : 0 < the_size)
    (hwait : (d.waitReceivePending w.hw self.my_sn).1 = rc_e.rc_ok) :
    UdpPeer.readBuffer d fuel self (some buf) the_size w
      = some (((if self.my_unreadByteAvail then 1 else 0) +
                (d.receive (d.waitReceivePending w.hw self.my_sn).2 self.my_sn
                  (the_size - (if self.my_unreadByteAvail then 1 else 0))).1.length % U16) % U16,
          some (storeAt (if self.my_unreadByteAvail then buf.set 0 self.my_unreadByte else buf)
            (if self.my_unreadByteAvail then 1 else 0)
            (d.receive (d.waitReceivePending w.hw self.my_sn).2 self.my_sn
              (the_size - (if self.my_unreadByteAvail then 1 else 0))).1),
          { self with
            my_unreadByteAvail := false,
            my_totRead := (self.my_totRead +
              ((if self.my_unreadByteAvail then 1 else 0) +
                (d.receive (d.waitReceivePending w.hw self.my_sn).2 self.my_sn
                  (the_size - (if self.my_unreadByteAvail then 1 else 0))).1.length % U16)
                % U16) % U32 },
          { hw := (d.receive (d.waitReceivePending w.hw self.my_sn).2 self.my_sn
                    (the_size - (if self.my_unreadByteAvail then 1 else 0))).2,
            calls := w.calls ++ [DriverCall.waitReceivePending self.my_sn,
              DriverCall.receive self.my_sn
                (the_size - (if self.my_unreadByteAvail then 1 else 0))] }) := by
  have hv := prv_isValidSn_of_ne d self hbound
  have hs : the_size ≠ 0 := by omega
  cases ha : self.my_unreadByteAvail with
  | false =>
    simp only [UdpPeer.readBuffer, hv, hs, ha, Hw.waitReceivePending, hwait, Hw.receive,
      Bool.not_true, Bool.false_eq_true, if_false, ne_eq, not_true_eq_false, Nat.sub_zero,
      Nat.zero_add, Option.some.injEq, Prod.mk.injEq, true_and, List.append_assoc,
      List.singleton_append, and_true]
  | true =>
    simp only [UdpPeer.readBuffer, hv, hs, ha, Hw.waitReceivePending, hwait, Hw.receive,
      Bool.not_true, Bool.false_eq_true, if_false, if_true, ne_eq, not_true_eq_false,
      List.append_assoc, List.singleton_append]

theorem readBuffer_wait_error (d : W5100 σ) (fuel : Nat) (self : UdpPeer) (buf : List Byte)
    (the_size : Nat) (w : World σ)
    (hbound : self.my_sn ≠ d.socket_undefined) (hsize : 0 < the_size)
    (hwait : (d.waitReceivePending w.hw self.my_sn).1 ≠ rc_e.rc_ok) :
    UdpPeer.readBuffer d fuel self (some buf) the_size w
      = (UdpPeer.close d fuel
          { self with
            my_unreadByteAvail := false,
            my_totRead := (self.my_totRead + (if self.my_unreadByteAvail then 1 else 0)) % U32 }
          (Hw.waitReceivePending d self.my_sn w).2).map
          (fun r => (if self.my_unreadByteAvail then 1 else 0,
            some (if self.my_unreadByteAvail then buf.set 0 self.my_unreadByte else buf),
            r.2.1, r.2.2)) := by
  have hv := prv_isValidSn_of_ne d self hbound
  have hs : the_size ≠ 0 := by omega
  cases ha : self.my_unreadByteAvail with
  | false =>
    have e : ({ self with my_unreadByteAvail := false,
                          my_totRead := (self.my_totRead + 0) % U32 } : UdpPeer)
        = { self with my_totRead := (self.my_totRead + 0) % U32 } := by
      cases self; simp_all
    simp only [UdpPeer.readBuffer, hv, hs, ha, Hw.waitReceivePending, hwait,
      Bool.not_true, Bool.false_eq_true, if_false, if_true, ne_eq, not_false_eq_true]
    rw [e]
    cases UdpPeer.close d fuel
      { self with my_totRead := (self.my_totRead + 0) % U32 }
      { hw := (d.waitReceivePending w.hw self.my_sn).2,
        calls := w.calls ++ [DriverCall.waitReceivePending self.my_sn] } with
    | none => rfl
    | some r => rfl
  | true =>
    simp only [UdpPeer.readBuffer, hv, hs, ha, Hw.waitReceivePending, hwait,
      Bool.not_true, Bool.false_eq_true, if_false, if_true, ne_eq, not_false_eq_true]
    cases UdpPeer.close d fuel
      { self with my_unreadByteAvail := false, my_totRead := (self.my_totRead + 1) % U32 }
      { hw := (d.waitReceivePending w.hw self.my_sn).2,
        calls := w.calls ++ [DriverCall.waitReceivePending self.my_sn] } with
    | none => rfl
    | some r => rfl

/-- The receive branch of `readBuffer` with a driver that delivers at most the
`n` bytes it is asked for: no count wraps around, so the result is the pending
byte (if any) plus the bytes delivered. -/
theorem readBuffer_wait_ok_counts (d : W5100 σ) (fuel : Nat) (self : UdpPeer)
    (buf : List Byte) (the_size : Nat) (w : World σ)
    (hbound : self.my_sn ≠ d.socket_undefined) (hsize : 0 < the_size) (h16 : the_size < U16)
    (hrecv : ∀ (hw : σ) (sn : socket_e) (n : Nat), (d.receive hw sn n).1.length ≤ n)
    (hwait : (d.waitReceivePending w.hw self.my_sn).1 = rc_e.rc_ok) :
    UdpPeer.readBuffer d fuel self (some buf) the_size w
      = some ((if self.my_unreadByteAvail then 1 else 0) +
                (d.receive (d.waitReceivePending w.hw self.my_sn).2 self.my_sn
                  (the_size - (if self.my_unreadByteAvail then 1 else 0))).1.length,
          some (storeAt (if self.my_unreadByteAvail then buf.set 0 self.my_unreadByte else buf)
            (if self.my_unreadByteAvail then 1 else 0)
            (d.receive (d.waitReceivePending w.hw self.my_sn).2 self.my_sn
              (the_size - (if self.my_unreadByteAvail then 1 else 0))).1),
          { self with
            my_unreadByteAvail := false,
            my_totRead := (self.my_totRead +
              ((if self.my_unreadByteAvail then 1 else 0) +
                (d.receive (d.waitReceivePending w.hw self.my_sn).2 self.my_sn
                  (the_size - (if self.my_unreadByteAvail then 1 else 0))).1.length)) % U32 },
          { hw := (d.receive (d.waitReceivePending w.hw self.my_sn).2 self.my_sn
                    (the_size - (if self.my_unreadByteAvail then 1 else 0))).2,
            calls := w.calls ++ [DriverCall.waitReceivePending self.my_sn,
              DriverCall.receive self.my_sn
                (the_size - (if self.my_unreadByteAvail then 1 else 0))] }) := by
  have hlen := hrecv (d.waitReceivePending w.hw self.my_sn).2 self.my_sn
    (the_size - (if self.my_unreadByteAvail then 1 else 0))
  have hcount : ((if self.my_unreadByteAvail then 1 else 0) +
      (d.receive (d.waitReceivePending w.hw self.my_sn).2 self.my_sn
        (the_size - (if self.my_unreadByteAvail then 1 else 0))).1.length % U16) % U16
      = (if self.my_unreadByteAvail then 1 else 0) +
        (d.receive (d.waitReceivePending w.hw self.my_sn).2 self.my_sn
          (the_size - (if self.my_unreadByteAvail then 1 else 0))).1.length := by
    unfold U16 at *
    split_ifs at hlen ⊢ <;> omega
  rw [readBuffer_wait_ok d fuel self buf the_size w hbound hsize hwait, hcount]

/-- C12: `readBuffer` on a bound connection with a buffer of at least
`the_size >= 1` bytes, a driver whose `receive(buf, n)` delivers at most `n`
bytes.  Whenever the call returns, the count `r` it returns is at most
`the_size`, the read counter has increased by exactly `r` (modulo `2 ^ 32`) in
the driver-error branch as in the receive branch, the pending flag is clear,
a byte that was pending is at position 0 of the buffer with `r >= 1`, and any
receive the driver was asked for was for `the_size` minus the pending byte
already stored.  When the wait reports ok the call returns, and what it
returns is pinned: it has waited once and asked the driver once to receive
the remaining `the_size` minus the pending byte, `r` is the pending byte (if
any) plus the number of bytes the driver delivered, those bytes are in the
buffer after the pending byte, and the hardware is in the state the receive
left.  When the wait reports an error the call is `close()` run on the object
with the pending byte taken and counted: `r` is 1 if a byte was pending and 0
otherwise, no receive is asked for, and the call returns when `close()` does
(it does when the slot is closed, when the driver's close command closes it,
or when that command reports an error).  With a null buffer or `the_size = 0`
it returns 0 and changes nothing. -/
theorem readBuffer_contract (d : W5100 σ) (fuel : Nat) (self : UdpPeer) (buf : List Byte)
    (the_size : Nat) (w : World σ)
    (hbound : self.my_sn ≠ d.socket_undefined)
    (hsize : 0 < the_size) (h16 : the_size < U16) (hroom : the_size ≤ buf.length)
    (hrecv : ∀ (hw : σ) (sn : socket_e) (n : Nat), (d.receive hw sn n).1.length ≤ n) :
    (∀ (r : Nat) (out : Buffer) (s1 : UdpPeer) (w1 : World σ),
      UdpPeer.readBuffer d fuel self (some buf) the_size w = some (r, out, s1, w1) →
      r ≤ the_size ∧
      s1.my_totRead = (self.my_totRead + r) % U32 ∧
      s1.my_unreadByteAvail = false ∧
      (self.my_unreadByteAvail = true →
        1 ≤ r ∧ ∃ bs, out = some (self.my_unreadByte :: bs)) ∧
      ∃ cs, w1.calls = w.calls ++ cs ∧
        ∀ (sn : socket_e) (n : Nat), DriverCall.receive sn n ∈ cs →
          n = the_size - (if self.my_unreadByteAvail then 1 else 0)) ∧
    ((d.waitReceivePending w.hw self.my_sn).1 = rc_e.rc_ok →
      UdpPeer.readBuffer d fuel self (some buf) the_size w
        = some ((if self.my_unreadByteAvail then 1 else 0) +
                  (d.receive (d.waitReceivePending w.hw self.my_sn).2 self.my_sn
                    (the_size - (if self.my_unreadByteAvail then 1 else 0))).1.length,
            some (storeAt
              (if self.my_unreadByteAvail then buf.set 0 self.my_unreadByte else buf)
              (if self.my_unreadByteAvail then 1 else 0)
              (d.receive (d.waitReceivePending w.hw self.my_sn).2 self.my_sn
                (the_size - (if self.my_unreadByteAvail then 1 else 0))).1),
            { self with
              my_unreadByteAvail := false,
              my_totRead := (self.my_totRead +
                ((if self.my_unreadByteAvail then 1 else 0) +
                  (d.receive (d.waitReceivePending w.hw self.my_sn).2 self.my_sn
                    (the_size - (if self.my_unreadByteAvail then 1 else 0))).1.length))
                % U32 },
            { hw := (d.receive (d.waitReceivePending w.hw self.my_sn).2 self.my_sn
                      (the_size - (if self.my_unreadByteAvail then 1 else 0))).2,
              calls := w.calls ++ [DriverCall.waitReceivePending self.my_sn,
                DriverCall.receive self.my_sn
                  (the_size - (if self.my_unreadByteAvail then 1 else 0))] })) ∧
    ((d.waitReceivePending w.hw self.my_sn).1 ≠ rc_e.rc_ok →
      UdpPeer.readBuffer d fuel self (some buf) the_size w
        = (UdpPeer.close d fuel
            { self with
              my_unreadByteAvail := false,
              my_totRead :=
                (self.my_totRead + (if self.my_unreadByteAvail then 1 else 0)) % U32 }
            (Hw.waitReceivePending d self.my_sn w).2).map
            (fun r => (if self.my_unreadByteAvail then 1 else 0,
              some (if self.my_unreadByteAvail then buf.set 0 self.my_unreadByte else buf),
              r.2.1, r.2.2)) ∧
      ((d.isClosed (d.waitReceivePending w.hw self.my_sn).2 self.my_sn = true ∨
          (d.close (d.waitReceivePending w.hw self.my_sn).2 self.my_sn).1 ≠ rc_e.rc_ok ∨
          d.isClosed (d.close (d.waitReceivePending w.hw self.my_sn).2 self.my_sn).2
            self.my_sn = true) →
        ∃ s1 w1,
          UdpPeer.readBuffer d (fuel + 1) self (some buf) the_size w
            = some (if self.my_unreadByteAvail then 1 else 0,
                some (if self.my_unreadByteAvail then buf.set 0 self.my_unreadByte else buf),
                s1, w1))) ∧
    UdpPeer.readBuffer d fuel self none the_size w = some (0, none, self, w) ∧
    UdpPeer.readBuffer d fuel self (some buf) 0 w = some (0, some buf, self, w) := by
  have hv := prv_isValidSn_of_ne d self hbound
  refine ⟨?_, ?_, ?_, by simp [UdpPeer.readBuffer, hv], by simp [UdpPeer.readBuffer, hv]⟩
  · intro r out s1 w1 h
    by_cases hwait : (d.waitReceivePending w.hw self.my_sn).1 = rc_e.rc_ok
    · -- the receive branch
      rw [readBuffer_wait_ok_counts d fuel self buf the_size w hbound hsize h16 hrecv hwait] at h
      simp only [Option.some.injEq, Prod.mk.injEq] at h
      obtain ⟨hr, hout, hs, hw1⟩ := h
      have hlen := hrecv (d.waitReceivePending w.hw self.my_sn).2 self.my_sn
        (the_size - (if self.my_unreadByteAvail then 1 else 0))
      refine ⟨?_, ?_, ?_, ?_, ?_⟩
      · rw [← hr]; split_ifs at hlen ⊢ <;> omega
      · rw [← hs, hr]
      · rw [← hs]
      · intro ha
        refine ⟨by rw [← hr, ha]; simp, ?_⟩
        rw [← hout]
        cases buf with
        | nil => simp at hroom; omega
        | cons x xs =>
          simp only [ha, if_true, List.set_cons_zero]
          exact ⟨_, by rw [storeAt_cons_succ]⟩
      · refine ⟨_, by rw [← hw1], ?_⟩
        intro sn n hm
        simp only [List.mem_cons, List.mem_singleton, DriverCall.receive.injEq,
          List.not_mem_nil, or_false] at hm
        rcases hm with h0 | h0
        · cases h0
        · exact h0.2
    · -- the driver-error branch
      rw [readBuffer_wait_error d fuel self buf the_size w hbound hsize hwait] at h
      simp only [Option.map_eq_some', Prod.mk.injEq] at h
      obtain ⟨⟨cr, cs1, cw1⟩, hc, hr, hout, hs, hw1⟩ := h
      simp only at hs hw1
      rw [hs, hw1] at hc
      obtain ⟨hres, cs, hcalls, hmem⟩ := close_result d fuel _ s1 _ w1 cr hc
      have hfields : s1.my_totRead
            = (self.my_totRead + (if self.my_unreadByteAvail then 1 else 0)) % U32 ∧
          s1.my_unreadByteAvail = false := by
        rw [hres]
        cases cr <;> exact ⟨rfl, rfl⟩
      refine ⟨?_, ?_, hfields.2, ?_, ?_⟩
      · rw [← hr]; split_ifs <;> omega
      · rw [hfields.1, hr]
      · intro ha
        refine ⟨by rw [← hr, ha]; simp, ?_⟩
        rw [← hout]
        cases buf with
        | nil => simp at hroom; omega
        | cons x xs => exact ⟨xs, by simp [ha]⟩
      · refine ⟨DriverCall.waitReceivePending self.my_sn :: cs, ?_, ?_⟩
        · rw [hcalls]; simp [Hw.waitReceivePending]
        · intro sn n hm
          rcases List.mem_cons.mp hm with h0 | h0
          · cases h0
          · rcases hmem _ h0 with h1 | h1 <;> cases h1
  · intro hwait
    exact readBuffer_wait_ok_counts d fuel self buf the_size w hbound hsize h16 hrecv hwait
  · intro hwait
    refine ⟨readBuffer_wait_error d fuel self buf the_size w hbound hsize hwait, fun hdrv => ?_⟩
    rw [readBuffer_wait_error d (fuel + 1) self buf the_size w hbound hsize hwait]
    have hclose : ∃ cr s1 w1, UdpPeer.close d (fuel + 1)
        { self with
          my_unreadByteAvail := false,
          my_totRead := (self.my_totRead + (if self.my_unreadByteAvail then 1 else 0)) % U32 }
        (Hw.waitReceivePending d self.my_sn w).2 = some (cr, s1, w1) := by
      by_cases hc : d.isClosed (d.waitReceivePending w.hw self.my_sn).2 self.my_sn = true
      · obtain ⟨w1, h1⟩ := close_returns_when_driver_closes d fuel
          { self with
            my_unreadByteAvail := false,
            my_totRead := (self.my_totRead + (if self.my_unreadByteAvail then 1 else 0)) % U32 }
          (Hw.waitReceivePending d self.my_sn w).2 hbound (Or.inl hc)
        exact ⟨_, _, _, h1⟩
      · by_cases he : (d.close (d.waitReceivePending w.hw self.my_sn).2 self.my_sn).1
            = rc_e.rc_ok
        · rcases hdrv with h0 | h0 | h0
          · exact absurd h0 hc
          · exact absurd he h0
          · obtain ⟨w1, h1⟩ := close_returns_when_driver_closes d fuel
              { self with
                my_unreadByteAvail := false,
                my_totRead :=
                  (self.my_totRead + (if self.my_unreadByteAvail then 1 else 0)) % U32 }
              (Hw.waitReceivePending d self.my_sn w).2 hbound (Or.inr ⟨he, h0⟩)
            exact ⟨_, _, _, h1⟩
        · obtain ⟨w1, h1⟩ := close_fails_when_driver_errors d fuel
            { self with
              my_unreadByteAvail := false,
              my_totRead := (self.my_totRead + (if self.my_unreadByteAvail then 1 else 0)) % U32 }
            (Hw.waitReceivePending d self.my_sn w).2 hbound (by simpa using hc) he
          exact ⟨_, _, _, h1⟩
    obtain ⟨cr, s1, w1, h1⟩ := hclose
    rw [h1]
    exact ⟨s1, w1, rfl⟩

theorem simW5100_receive_le (hw : SimHw) (sn : socket_e) (n : Nat) :
    (simW5100.receive hw sn n).1.length ≤ n := by
  show (SimHw.receive hw sn n).1.length ≤ n
  unfold SimHw.receive
  split
  · simp
  · simp [List.length_take]

/-- Witness of C12, on a connection bound to slot 0 with the datagram
`72 105 33` waiting and a four-byte buffer of which three bytes are asked for.
First with no byte pending: the driver is asked for three bytes and all three
are returned.  Then with the pushed-back byte 9 pending: the driver is asked
for two bytes, and 9 and the two bytes are returned. -/
theorem readBuffer_contract_witness :
    (UdpPeer.readBuffer simW5100 0 (mkPeer 0 0 false 7 0) (some [0, 0, 0, 0]) 3
        (simWorld [[72, 105, 33]] false true)
      = some (3, some [72, 105, 33, 0], mkPeer 0 0 false 10 0,
          { hw := simChip [] false true,
            calls := [DriverCall.waitReceivePending 0, DriverCall.receive 0 3] })) ∧
    (UdpPeer.readBuffer simW5100 0 (mkPeer 0 9 true 7 0) (some [0, 0, 0, 0]) 3
        (simWorld [[72, 105, 33]] false true)
      = some (3, some [9, 72, 105, 0], mkPeer 0 9 false 10 0,
          { hw := simChip [[33]] false true,
            calls := [DriverCall.waitReceivePending 0, DriverCall.receive 0 2] })) ∧
    (3 ≤ 3 ∧
      (mkPeer 0 9 false 10 0).my_totRead = ((mkPeer 0 9 true 7 0).my_totRead + 3) % U32 ∧
      (mkPeer 0 9 false 10 0).my_unreadByteAvail = false ∧
      ((mkPeer 0 9 true 7 0).my_unreadByteAvail = true →
        1 ≤ 3 ∧ ∃ bs, (some [9, 72, 105, 0] : Buffer)
          = some ((mkPeer 0 9 true 7 0).my_unreadByte :: bs)) ∧
      ∃ cs, ({ hw := simChip [[33]] false true,
               calls := [DriverCall.waitReceivePending 0, DriverCall.receive 0 2] }
              : World SimHw).calls
          = (simWorld [[72, 105, 33]] false true).calls ++ cs ∧
        ∀ (sn : socket_e) (n : Nat), DriverCall.receive sn n ∈ cs →
          n = 3 - (if (mkPeer 0 9 true 7 0).my_unreadByteAvail then 1 else 0)) :=
  ⟨((readBuffer_contract simW5100 0 (mkPeer 0 0 false 7 0) [0, 0, 0, 0] 3
      (simWorld [[72, 105, 33]] false true) (by decide) (by decide) (by decide) (by decide)
      simW5100_receive_le).2.1 (by decide)).trans (by decide),
   ((readBuffer_contract simW5100 0 (mkPeer 0 9 true 7 0) [0, 0, 0, 0] 3
      (simWorld [[72, 105, 33]] false true) (by decide) (by decide) (by decide) (by decide)
      simW5100_receive_le).2.1 (by decide)).trans (by decide),
   (readBuffer_contract simW5100 0 (mkPeer 0 9 true 7 0) [0, 0, 0, 0] 3
      (simWorld [[72, 105, 33]] false true) (by decide) (by decide) (by decide) (by decide)
      simW5100_receive_le).1 3 (some [9, 72, 105, 0]) (mkPeer 0 9 false 10 0)
      { hw := simChip [[33]] false true,
        calls := [DriverCall.waitReceivePending 0, DriverCall.receive 0 2] }
      (by decide)⟩

/-! ## Failed byte transfers -/

/-- C14 (as amended): on a bound connection, a `readByte` that returns false
has either seen the driver's wait-for-receive report an error and run
`close()` (the object and the world are the ones `close()` left; the
connection is unbound when that `close()` returned true and still bound when it
returned false), or seen the wait report ok and the driver deliver a number of
bytes other than one; then no close is attempted: the only driver calls are
the wait and the one-byte receive, the hardware is in the state the receive
left, and the object is still bound, changed only in its read counter, which
has the delivered count added.  A `writeByte` that returns false has either
seen the driver report that it cannot transmit and run `close()` (unbound
afterwards when that `close()` returned true), or seen the driver's send
accept a number of bytes other than one; then no close is attempted: the only
driver calls are the transmit check and the send, the hardware is in the state
the send left, and the object is unchanged and still bound. -/
theorem failed_transfer_closes_on_driver_error (d : W5100 σ) (fuel : Nat) (self : UdpPeer)
    (out the_byte : Byte) (w : World σ)
    (hbound : self.my_sn ≠ d.socket_undefined) :
    (∀ (b : Byte) (s1 : UdpPeer) (w1 : World σ),
      UdpPeer.readByte d fuel self out w = some (false, b, s1, w1) →
      ((d.waitReceivePending w.hw self.my_sn).1 ≠ rc_e.rc_ok ∧
        ∃ r, UdpPeer.close d fuel self (Hw.waitReceivePending d self.my_sn w).2
            = some (r, s1, w1) ∧
          (r = true → s1.my_sn = d.socket_undefined) ∧ (r = false → s1 = self)) ∨
      ((d.waitReceivePending w.hw self.my_sn).1 = rc_e.rc_ok ∧
        (d.receive (d.waitReceivePending w.hw self.my_sn).2 self.my_sn 1).1.length % U16 ≠ 1 ∧
        s1.my_sn = self.my_sn ∧
        s1 = { self with
               my_totRead := (self.my_totRead +
                 (d.receive (d.waitReceivePending w.hw self.my_sn).2 self.my_sn 1).1.length
                   % U16) % U32 } ∧
        w1 = { hw := (d.receive (d.waitReceivePending w.hw self.my_sn).2 self.my_sn 1).2,
               calls := w.calls ++ [DriverCall.waitReceivePending self.my_sn,
                                    DriverCall.receive self.my_sn 1] } ∧
        (∀ sn : socket_e,
          DriverCall.close sn ∉ [DriverCall.waitReceivePending self.my_sn,
                                 DriverCall.receive self.my_sn 1]))) ∧
    (∀ (s1 : UdpPeer) (w1 : World σ),
      UdpPeer.writeByte d fuel self the_byte w = some (false, s1, w1) →
      (d.canTransmitData w.hw self.my_sn = false ∧
        ∃ r, UdpPeer.close d fuel self (Hw.canTransmitData d self.my_sn w).2
            = some (r, s1, w1) ∧
          (r = true → s1.my_sn = d.socket_undefined) ∧ (r = false → s1 = self)) ∨
      (d.canTransmitData w.hw self.my_sn = true ∧
        (d.send w.hw self.my_sn self.my_dstIpAddr self.my_dstPort (some [the_byte]) 1).1
          % U16 ≠ 1 ∧
        s1 = self ∧
        w1 = { hw := (d.send w.hw self.my_sn self.my_dstIpAddr self.my_dstPort
                       (some [the_byte]) 1).2,
               calls := w.calls ++ [DriverCall.canTransmitData self.my_sn,
                 DriverCall.send self.my_sn self.my_dstIpAddr self.my_dstPort
                   (some [the_byte]) 1] } ∧
        (∀ sn : socket_e,
          DriverCall.close sn ∉ [DriverCall.canTransmitData self.my_sn,
            DriverCall.send self.my_sn self.my_dstIpAddr self.my_dstPort
              (some [the_byte]) 1]))) := by
  have hv := prv_isValidSn_of_ne d self hbound
  have hclose : ∀ (w0 : World σ) (r : Bool) (s1 : UdpPeer) (w1 : World σ),
      UdpPeer.close d fuel self w0 = some (r, s1, w1) →
      (r = true → s1.my_sn = d.socket_undefined) ∧ (r = false → s1 = self) := by
    intro w0 r s1 w1 hc
    obtain ⟨hs, _⟩ := close_result d fuel self s1 w0 w1 r hc
    cases r with
    | false => exact ⟨(fun h => by cases h), (fun _ => by simpa using hs)⟩
    | true => exact ⟨(fun _ => by rw [hs]; rfl), (fun h => by cases h)⟩
  constructor
  · intro b s1 w1 h
    unfold UdpPeer.readByte at h
    simp only [hv, Bool.not_true, Bool.false_eq_true, if_false] at h
    by_cases ha : self.my_unreadByteAvail = true
    · simp [ha] at h
    · simp only [ha, Bool.false_eq_true, if_false] at h
      by_cases hwait : (d.waitReceivePending w.hw self.my_sn).1 = rc_e.rc_ok
      · right
        have hwait1 : (Hw.waitReceivePending d self.my_sn w).1 = rc_e.rc_ok := hwait
        simp only [hwait1, ne_eq, not_true_eq_false, if_false, Option.some.injEq,
          Prod.mk.injEq, decide_eq_false_iff_not] at h
        obtain ⟨hcnt, _, hs, hw1⟩ := h
        have ha0 : self.my_unreadByteAvail = false := by simpa using ha
        refine ⟨hwait, hcnt, by rw [← hs], ?_, ?_, ?_⟩
        · rw [← hs]
          congr 1
          exact ha0.symm
        · rw [← hw1]
          simp [Hw.receive, Hw.waitReceivePending]
        · intro sn hm
          simp at hm
      · left
        have hwait1 : (Hw.waitReceivePending d self.my_sn w).1 ≠ rc_e.rc_ok := hwait
        simp only [hwait1, ne_eq, not_false_eq_true, if_true] at h
        cases hc : UdpPeer.close d fuel self (Hw.waitReceivePending d self.my_sn w).2 with
        | none => simp [hc] at h
        | some cr =>
          obtain ⟨r, s2, w2⟩ := cr
          simp only [hc, Option.some.injEq, Prod.mk.injEq, true_and] at h
          obtain ⟨_, hs, hw1⟩ := h
          subst hs hw1
          exact ⟨hwait, r, rfl, hclose _ r s2 w2 hc⟩
  · intro s1 w1 h
    unfold UdpPeer.writeByte at h
    simp only [hv, Bool.not_true, Bool.false_eq_true, if_false] at h
    by_cases hcan : d.canTransmitData w.hw self.my_sn = true
    · right
      have hcan1 : (Hw.canTransmitData d self.my_sn w).1 = true := hcan
      simp only [hcan1, Bool.not_true, Bool.false_eq_true, if_false] at h
      split_ifs at h with hsend
      · simp only [Option.some.injEq, Prod.mk.injEq, true_and] at h
        refine ⟨hcan, hsend, h.1.symm, ?_, ?_⟩
        · rw [← h.2]
          simp [Hw.send, Hw.canTransmitData]
        · intro sn hm
          simp at hm
      · simp at h
    · left
      have hcan0 : d.canTransmitData w.hw self.my_sn = false := by simpa using hcan
      have hcan1 : (Hw.canTransmitData d self.my_sn w).1 = false := hcan0
      simp only [hcan1, Bool.not_false, if_true] at h
      cases hc : UdpPeer.close d fuel self (Hw.canTransmitData d self.my_sn w).2 with
      | none => simp [hc] at h
      | some cr =>
        obtain ⟨r, s2, w2⟩ := cr
        simp only [hc, Option.some.injEq, Prod.mk.injEq, true_and] at h
        obtain ⟨hs, hw1⟩ := h
        subst hs hw1
        exact ⟨hcan0, r, rfl, hclose _ r s2 w2 hc⟩

/-- Witness of C14 (as amended), on a connection bound to slot 0.  First:
nothing is waiting, the wait reports an error, the driver's close command
closes the slot, `readByte` returns false and the connection is unbound.
Second: an empty datagram is waiting, the wait reports ok and the receive
delivers nothing; `readByte` returns false, the only driver calls are the wait
and the receive, and the connection is still bound. -/
theorem failed_transfer_closes_on_driver_error_witness :
    (UdpPeer.readByte simW5100 1 (mkPeer 0 0 false 7 0) 0 (simWorld [] false true)
      = some (false, 0, mkPeer 255 0 false 7 0,
          { hw := (simChip [] false true).setSlot 0 SimSlot.idle,
            calls := [DriverCall.waitReceivePending 0, DriverCall.isClosed 0,
                      DriverCall.close 0, DriverCall.isClosed 0] }) ∧
      ∃ r, UdpPeer.close simW5100 1 (mkPeer 0 0 false 7 0)
            (Hw.waitReceivePending simW5100 0 (simWorld [] false true)).2
          = some (r, mkPeer 255 0 false 7 0,
              { hw := (simChip [] false true).setSlot 0 SimSlot.idle,
                calls := [DriverCall.waitReceivePending 0, DriverCall.isClosed 0,
                          DriverCall.close 0, DriverCall.isClosed 0] }) ∧
        (r = true → (mkPeer 255 0 false 7 0).my_sn = simW5100.socket_undefined) ∧
        (r = false → mkPeer 255 0 false 7 0 = mkPeer 0 0 false 7 0)) ∧
    (UdpPeer.readByte simW5100 1 (mkPeer 0 0 false 7 0) 0 (simWorld [[]] false true)
      = some (false, 0, mkPeer 0 0 false 7 0,
          { hw := simChip [] false true,
            calls := [DriverCall.waitReceivePending 0, DriverCall.receive 0 1] }) ∧
      (mkPeer 0 0 false 7 0).my_sn = (mkPeer 0 0 false 7 0).my_sn ∧
      ∀ sn : socket_e,
        DriverCall.close sn ∉ [DriverCall.waitReceivePending 0, DriverCall.receive 0 1]) :=
  ⟨⟨by decide,
    ((failed_transfer_closes_on_driver_error simW5100 1 (mkPeer 0 0 false 7 0) 0 0
        (simWorld [] false true) (by decide)).1 0 (mkPeer 255 0 false 7 0)
        { hw := (simChip [] false true).setSlot 0 SimSlot.idle,
          calls := [DriverCall.waitReceivePending 0, DriverCall.isClosed 0,
                    DriverCall.close 0, DriverCall.isClosed 0] }
        (by decide)).elim
      (fun h => h.2)
      (fun h => absurd h.1 (by decide))⟩,
   by decide,
   ((failed_transfer_closes_on_driver_error simW5100 1 (mkPeer 0 0 false 7 0) 0 0
        (simWorld [[]] false true) (by decide)).1 0 (mkPeer 0 0 false 7 0)
        { hw := simChip [] false true,
          calls := [DriverCall.waitReceivePending 0, DriverCall.receive 0 1] }
        (by decide)).elim
      (fun h => absurd (by decide) h.1)
      (fun h => ⟨h.2.2.1, h.2.2.2.2.2⟩)⟩

/-- C14 (counterexample to the claim as stated), on a connection bound to slot
0.  First: an empty datagram is waiting, the wait reports ok and the one-byte
receive delivers nothing; `readByte` returns false and the connection is still
bound to slot 0, no close has been attempted.  Second: the chip reports that it
can transmit and its send accepts no byte; `writeByte` returns false and the
connection is still bound to slot 0, no close has been attempted. -/
theorem failed_transfer_not_terminal_counterexample :
    (UdpPeer.readByte simW5100 1 (mkPeer 0 0 false 7 0) 0 (simWorld [[]] false true)
        = some (false, 0, mkPeer 0 0 false 7 0,
            { hw := simChip [] false true,
              calls := [DriverCall.waitReceivePending 0, DriverCall.receive 0 1] }) ∧
      (mkPeer 0 0 false 7 0).prv_isValidSn simW5100 = true) ∧
    (UdpPeer.writeByte simFullW5100 1 (mkPeer 0 0 false 0 5) 65 (simWorld [] false true)
        = some (false, mkPeer 0 0 false 0 5,
            { hw := simChip [] false true,
              calls := [DriverCall.canTransmitData 0,
                DriverCall.send 0 { ip0 := 10, ip1 := 0, ip2 := 0, ip3 := 7 } 9000
                  (some [65]) 1] }) ∧
      (mkPeer 0 0 false 0 5).prv_isValidSn simFullW5100 = true) := by
  decide

/-! ## Flushing the input -/

theorem flushRead_loop_zero (d : W5100 σ) (fuel : Nat) (self : UdpPeer) (c : Byte)
    (w : World σ) :
    UdpPeer.flushRead_loop d fuel 0 self c w
      = if (Hw.checkReceivePending d self.my_sn w).1 = rc_e.rc_ok then none
        else some (self, (Hw.checkReceivePending d self.my_sn w).2) := by
  rw [UdpPeer.flushRead_loop]

theorem flushRead_loop_succ (d : W5100 σ) (fuel n : Nat) (self : UdpPeer) (c : Byte)
    (w : World σ) :
    UdpPeer.flushRead_loop d fuel (n + 1) self c w
      = if (Hw.checkReceivePending d self.my_sn w).1 = rc_e.rc_ok then
          match UdpPeer.readByte d fuel self c (Hw.checkReceivePending d self.my_sn w).2 with
          | none => none
          | some (_, c1, self1, w1) => UdpPeer.flushRead_loop d fuel n self1 c1 w1
        else some (self, (Hw.checkReceivePending d self.my_sn w).2) := by
  rw [UdpPeer.flushRead_loop]

/-- What `readByte` does to the slot identifier and the pending flag: the
object stays on its slot or becomes unbound, an unbound object is left as it
is, and a bound object has no pending byte afterwards. -/
theorem readByte_slot_and_flag (d : W5100 σ) (fuel : Nat) (p : UdpPeer) (c b : Byte)
    (w w1 : World σ) (r : Bool) (s : UdpPeer)
    (h : UdpPeer.readByte d fuel p c w = some (r, b, s, w1)) :
    (p.my_sn = d.socket_undefined → s = p) ∧
    (p.my_sn ≠ d.socket_undefined →
      (s.my_sn = p.my_sn ∨ s.my_sn = d.socket_undefined) ∧ s.my_unreadByteAvail = false) := by
  unfold UdpPeer.readByte at h
  by_cases hv : p.my_sn = d.socket_undefined
  · simp only [UdpPeer.prv_isValidSn, hv, ne_eq, not_true_eq_false, decide_False, Bool.not_false,
      if_true, Option.some.injEq, Prod.mk.injEq] at h
    exact ⟨fun _ => h.2.2.1.symm, fun hne => absurd hv hne⟩
  · refine ⟨fun he => absurd he hv, fun _ => ?_⟩
    simp only [UdpPeer.prv_isValidSn, hv, ne_eq, not_false_eq_true, decide_True, Bool.not_true,
      Bool.false_eq_true, if_false] at h
    by_cases ha : p.my_unreadByteAvail = true
    · simp only [ha, if_true, Option.some.injEq, Prod.mk.injEq] at h
      obtain ⟨_, _, hs, _⟩ := h
      subst hs
      exact ⟨Or.inl rfl, rfl⟩
    · have ha0 : p.my_unreadByteAvail = false := by simpa using ha
      simp only [ha, Bool.false_eq_true, if_false] at h
      split_ifs at h with hwait
      · simp only [Option.some.injEq, Prod.mk.injEq] at h
        obtain ⟨_, _, hs, _⟩ := h
        subst hs
        exact ⟨Or.inl rfl, rfl⟩
      · cases hc : UdpPeer.close d fuel p (Hw.waitReceivePending d p.my_sn w).2 with
        | none => simp [hc] at h
        | some cr =>
          obtain ⟨r2, s2, w2⟩ := cr
          simp only [hc, Option.some.injEq, Prod.mk.injEq] at h
          obtain ⟨_, _, hs, _⟩ := h
          subst hs
          obtain ⟨hres, _⟩ := close_result d fuel p s2 _ w2 r2 hc
          rw [hres]
          cases r2
          · exact ⟨Or.inl rfl, ha0⟩
          · exact ⟨Or.inr rfl, ha0⟩

/-- What the loop of `flushRead` leaves when it ends: the driver reports no
receive pending on the slot the object then names; an object that is still
bound is on the slot it started on, and it has no pending byte unless the loop
body never ran. -/
theorem flushRead_loop_exit (d : W5100 σ) (fuel : Nat) (n : Nat) :
    ∀ (self : UdpPeer) (c : Byte) (w : World σ) (s1 : UdpPeer) (w1 : World σ),
      UdpPeer.flushRead_loop d fuel n self c w = some (s1, w1) →
      d.checkReceivePending w1.hw s1.my_sn ≠ rc_e.rc_ok ∧
      (s1.my_sn ≠ d.socket_undefined →
        s1.my_sn = self.my_sn ∧
        (d.checkReceivePending w.hw self.my_sn = rc_e.rc_ok → s1.my_unreadByteAvail = false)) ∧
      (d.checkReceivePending w.hw self.my_sn ≠ rc_e.rc_ok →
        s1 = self ∧ w1 = (Hw.checkReceivePending d self.my_sn w).2) := by
  induction n with
  | zero =>
    intro self c w s1 w1 h
    rw [flushRead_loop_zero] at h
    split_ifs at h with hchk
    simp only [Option.some.injEq, Prod.mk.injEq] at h
    obtain ⟨rfl, rfl⟩ := h
    exact ⟨hchk, fun _ => ⟨rfl, fun hok => absurd hok hchk⟩, fun _ => ⟨rfl, rfl⟩⟩
  | succ n ih =>
    intro self c w s1 w1 h
    rw [flushRead_loop_succ] at h
    split_ifs at h with hchk
    · have hchk1 : d.checkReceivePending w.hw self.my_sn = rc_e.rc_ok := hchk
      cases hr : UdpPeer.readByte d fuel self c (Hw.checkReceivePending d self.my_sn w).2 with
      | none => simp [hr] at h
      | some rr =>
        obtain ⟨r, c1, self1, w2⟩ := rr
        simp only [hr] at h
        obtain ⟨hP, hQ, _⟩ := ih self1 c1 w2 s1 w1 h
        obtain ⟨hunb, hbnd⟩ := readByte_slot_and_flag d fuel self c c1 _ w2 r self1 hr
        refine ⟨hP, fun hs1 => ?_, fun hne => absurd hchk1 hne⟩
        obtain ⟨hsn, hflag⟩ := hQ hs1
        have hself : self.my_sn ≠ d.socket_undefined := by
          intro hu
          rw [hunb hu] at hsn
          exact hs1 (hsn.trans hu)
        obtain ⟨hsn1, hav1⟩ := hbnd hself
        have hsn2 : self1.my_sn = self.my_sn := by
          rcases hsn1 with h0 | h0
          · exact h0
          · exact absurd (hsn.trans h0) hs1
        refine ⟨hsn.trans hsn2, fun _ => ?_⟩
        by_cases hchk2 : d.checkReceivePending w2.hw self1.my_sn = rc_e.rc_ok
        · exact hflag hchk2
        · obtain ⟨_, _, hrest⟩ := ih self1 c1 w2 s1 w1 h
          rw [(hrest hchk2).1]
          exact hav1
    · simp only [Option.some.injEq, Prod.mk.injEq] at h
      obtain ⟨rfl, rfl⟩ := h
      exact ⟨hchk, fun _ => ⟨rfl, fun hok => absurd hok hchk⟩, fun _ => ⟨rfl, rfl⟩⟩

/-- What `flushRead` does achieve: when it returns on a bound connection with
the connection still bound, the connection is on the slot it started on and
the driver reports no receive pending on it; if the driver reported a receive
pending when `flushRead` was called, no pushed-back byte is pending either.
If the driver reported none, `flushRead` has made that one check and nothing
else: the object, with its pending byte and flag, is as it was. -/
theorem flushRead_drains_driver (d : W5100 σ) (fuel : Nat) (self : UdpPeer) (c0 : Byte)
    (w : World σ) (s1 : UdpPeer) (w1 : World σ)
    (hbound : self.my_sn ≠ d.socket_undefined)
    (hret : UdpPeer.flushRead d fuel self c0 w = some (s1, w1))
    (hstill : s1.my_sn ≠ d.socket_undefined) :
    s1.my_sn = self.my_sn ∧
    d.checkReceivePending w1.hw s1.my_sn ≠ rc_e.rc_ok ∧
    (UdpPeer.anyDataReceived d s1 w1).1 = false ∧
    (d.checkReceivePending w.hw self.my_sn = rc_e.rc_ok → s1.my_unreadByteAvail = false) ∧
    (d.checkReceivePending w.hw self.my_sn ≠ rc_e.rc_ok →
      s1 = self ∧ w1.hw = w.hw ∧
      w1.calls = w.calls ++ [DriverCall.checkReceivePending self.my_sn]) := by
  have hv := prv_isValidSn_of_ne d self hbound
  simp only [UdpPeer.flushRead, hv, Bool.not_true, Bool.false_eq_true, if_false] at hret
  obtain ⟨hP, hQ, hR⟩ := flushRead_loop_exit d fuel fuel self c0 w s1 w1 hret
  obtain ⟨hsn, hflag⟩ := hQ hstill
  refine ⟨hsn, hP, ?_, hflag, fun hne => ?_⟩
  · simp [UdpPeer.anyDataReceived, prv_isValidSn_of_ne d s1 hstill, Hw.checkReceivePending, hP]
  · obtain ⟨h1, h2⟩ := hR hne
    exact ⟨h1, by rw [h2]; rfl, by rw [h2]; rfl⟩

/-- An instance of `flushRead_drains_driver`: slot 0 holds the pushed-back byte
9 and has the datagram `72 105` waiting; `flushRead` discards all three bytes. -/
theorem flushRead_drains_driver_witness :
    UdpPeer.flushRead simW5100 3 (mkPeer 0 9 true 7 0) 0 (simWorld [[72, 105]] false true)
      = some (mkPeer 0 9 false 10 0,
          { hw := simChip [] false true,
            calls := [DriverCall.checkReceivePending 0, DriverCall.checkReceivePending 0,
              DriverCall.waitReceivePending 0, DriverCall.receive 0 1,
              DriverCall.checkReceivePending 0, DriverCall.waitReceivePending 0,
              DriverCall.receive 0 1, DriverCall.checkReceivePending 0] }) ∧
    (mkPeer 0 9 false 10 0).my_sn = (mkPeer 0 9 true 7 0).my_sn ∧
    simW5100.checkReceivePending (simChip [] false true) (mkPeer 0 9 false 10 0).my_sn
      ≠ rc_e.rc_ok ∧
    (mkPeer 0 9 false 10 0).my_unreadByteAvail = false :=
  ⟨by decide,
   (flushRead_drains_driver simW5100 3 (mkPeer 0 9 true 7 0) 0
      (simWorld [[72, 105]] false true) (mkPeer 0 9 false 10 0)
      { hw := simChip [] false true,
        calls := [DriverCall.checkReceivePending 0, DriverCall.checkReceivePending 0,
          DriverCall.waitReceivePending 0, DriverCall.receive 0 1,
          DriverCall.checkReceivePending 0, DriverCall.waitReceivePending 0,
          DriverCall.receive 0 1, DriverCall.checkReceivePending 0] }
      (by decide) (by decide) (by decide)).1,
   (flushRead_drains_driver simW5100 3 (mkPeer 0 9 true 7 0) 0
      (simWorld [[72, 105]] false true) (mkPeer 0 9 false 10 0)
      { hw := simChip [] false true,
        calls := [DriverCall.checkReceivePending 0, DriverCall.checkReceivePending 0,
          DriverCall.waitReceivePending 0, DriverCall.receive 0 1,
          DriverCall.checkReceivePending 0, DriverCall.waitReceivePending 0,
          DriverCall.receive 0 1, DriverCall.checkReceivePending 0] }
      (by decide) (by decide) (by decide)).2.1,
   (flushRead_drains_driver simW5100 3 (mkPeer 0 9 true 7 0) 0
      (simWorld [[72, 105]] false true) (mkPeer 0 9 false 10 0)
      { hw := simChip [] false true,
        calls := [DriverCall.checkReceivePending 0, DriverCall.checkReceivePending 0,
          DriverCall.waitReceivePending 0, DriverCall.receive 0 1,
          DriverCall.checkReceivePending 0, DriverCall.waitReceivePending 0,
          DriverCall.receive 0 1, DriverCall.checkReceivePending 0] }
      (by decide) (by decide) (by decide)).2.2.2.1 (by decide)⟩

/-- C15 (the code at the failing input): a connection bound to slot 0 holds the
pushed-back byte 9 and the driver has nothing waiting.  `flushRead` makes one
receive-pending check and returns with the connection still bound and the byte
9 still pending, where the claim has every available byte, the pending one
included, discarded: the next `readByte` returns 9. -/
theorem flushRead_keeps_pending_byte :
    simW5100.checkReceivePending (simChip [] false true) 0 ≠ rc_e.rc_ok ∧
    UdpPeer.flushRead simW5100 3 (mkPeer 0 9 true 7 0) 0 (simWorld [] false true)
      = some (mkPeer 0 9 true 7 0,
          { hw := simChip [] false true, calls := [DriverCall.checkReceivePending 0] }) ∧
    (mkPeer 0 9 true 7 0).prv_isValidSn simW5100 = true ∧
    (mkPeer 0 9 true 7 0).my_unreadByteAvail = true ∧
    UdpPeer.readByte simW5100 3 (mkPeer 0 9 true 7 0) 0
        { hw := simChip [] false true, calls := [DriverCall.checkReceivePending 0] }
      = some (true, 9, mkPeer 0 9 false 8 0,
          { hw := simChip [] false true, calls := [DriverCall.checkReceivePending 0] }) := by
  decide

/-! ## Reason phrases -/

/-- Every `HttpSvr_SC_nnn` string is the three decimal digits `nnn`, the codes
with a status-code macro are the codes with a reason-phrase macro, and for
every code other than 408, 414 and 415 the reason-phrase macro is, character
for character, the phrase RFC 2616 lists. -/
theorem reason_phrases_outside_typos :
    (∀ p ∈ HttpSvr_SC_table, p.2 = threeDigits p.1) ∧
    HttpSvr_SC_table.map Prod.fst = HttpSvr_RP_table.map Prod.fst ∧
    (∀ p ∈ HttpSvr_RP_table, p.1 ≠ 408 → p.1 ≠ 414 → p.1 ≠ 415 →
      rfc2616_reason_phrase p.1 = some p.2) := by
  decide

/-- C16 (the code at the failing inputs): the reason-phrase macros of the codes
408, 414 and 415, which have a status-code macro, differ from the phrases of
RFC 2616 section 6.1.1: `Rerquest Time-out` for `Request Time-out`,
`Request-URI too Large` for `Request-URI Too Large`, `Unsopprted Media Type`
for `Unsupported Media Type`. -/
theorem reason_phrase_typos :
    (HttpSvr_SC 408 = some "408" ∧ HttpSvr_RP 408 = some "Rerquest Time-out" ∧
      rfc2616_reason_phrase 408 = some "Request Time-out" ∧
      HttpSvr_RP 408 ≠ rfc2616_reason_phrase 408) ∧
    (HttpSvr_SC 414 = some "414" ∧ HttpSvr_RP 414 = some "Request-URI too Large" ∧
      rfc2616_reason_phrase 414 = some "Request-URI Too Large" ∧
      HttpSvr_RP 414 ≠ rfc2616_reason_phrase 414) ∧
    (HttpSvr_SC 415 = some "415" ∧ HttpSvr_RP 415 = some "Unsopprted Media Type" ∧
      rfc2616_reason_phrase 415 = some "Unsupported Media Type" ∧
      HttpSvr_RP 415 ≠ rfc2616_reason_phrase 415) := by
  decide

/-! ## Bulk read of one byte with a byte pending -/

/-- C17 (as amended): `readBuffer(buf, 1)` on a bound connection that holds
the pending byte `b` stores `b` at position 0 of the buffer and clears the
pending flag, and then goes to the driver all the same: it waits for receive.
When the wait reports ok it asks the driver for 0 further bytes and (the driver
delivering none) returns 1 with the read counter one higher and the connection
still bound.  When the wait reports an error it runs `close()` and returns 1
with the read counter one higher; the connection is unbound afterwards when
that `close()` succeeded, as it does when the driver's close command closes
the slot. -/
theorem readBuffer_one_with_pending (d : W5100 σ) (fuel : Nat) (self : UdpPeer) (x : Byte)
    (xs : List Byte) (w : World σ)
    (hbound : self.my_sn ≠ d.socket_undefined)
    (hpend : self.my_unreadByteAvail = true) :
    ((d.waitReceivePending w.hw self.my_sn).1 = rc_e.rc_ok →
      (d.receive (d.waitReceivePending w.hw self.my_sn).2 self.my_sn 0).1 = [] →
      UdpPeer.readBuffer d fuel self (some (x :: xs)) 1 w
        = some (1, some (self.my_unreadByte :: xs),
            { self with my_unreadByteAvail := false,
                        my_totRead := (self.my_totRead + 1) % U32 },
            { hw := (d.receive (d.waitReceivePending w.hw self.my_sn).2 self.my_sn 0).2,
              calls := w.calls ++ [DriverCall.waitReceivePending self.my_sn,
                                   DriverCall.receive self.my_sn 0] })) ∧
    ((d.waitReceivePending w.hw self.my_sn).1 ≠ rc_e.rc_ok →
      UdpPeer.readBuffer d fuel self (some (x :: xs)) 1 w
        = (UdpPeer.close d fuel
            { self with my_unreadByteAvail := false,
                        my_totRead := (self.my_totRead + 1) % U32 }
            (Hw.waitReceivePending d self.my_sn w).2).map
            (fun r => (1, some (self.my_unreadByte :: xs), r.2.1, r.2.2)) ∧
      ((d.isClosed (d.waitReceivePending w.hw self.my_sn).2 self.my_sn = true ∨
          ((d.close (d.waitReceivePending w.hw self.my_sn).2 self.my_sn).1 = rc_e.rc_ok ∧
            d.isClosed (d.close (d.waitReceivePending w.hw self.my_sn).2 self.my_sn).2
              self.my_sn = true)) →
        ∃ w1, UdpPeer.readBuffer d (fuel + 1) self (some (x :: xs)) 1 w
          = some (1, some (self.my_unreadByte :: xs),
              { self with my_sn := d.socket_undefined, my_unreadByteAvail := false,
                          my_totRead := (self.my_totRead + 1) % U32 }, w1))) := by
  have herr : ∀ fuel0 : Nat, (d.waitReceivePending w.hw self.my_sn).1 ≠ rc_e.rc_ok →
      UdpPeer.readBuffer d fuel0 self (some (x :: xs)) 1 w
        = (UdpPeer.close d fuel0
            { self with my_unreadByteAvail := false,
                        my_totRead := (self.my_totRead + 1) % U32 }
            (Hw.waitReceivePending d self.my_sn w).2).map
            (fun r => (1, some (self.my_unreadByte :: xs), r.2.1, r.2.2)) := by
    intro fuel0 hwait
    rw [readBuffer_wait_error d fuel0 self (x :: xs) 1 w hbound (by decide) hwait]
    simp only [hpend, if_true, List.set_cons_zero]
  refine ⟨fun hwait hnone => ?_, fun hwait => ⟨herr fuel hwait, fun hdrv => ?_⟩⟩
  · rw [readBuffer_wait_ok d fuel self (x :: xs) 1 w hbound (by decide) hwait]
    simp [hpend, hnone, storeAt, U16]
  · obtain ⟨w1, hc⟩ := close_returns_when_driver_closes d fuel
      { self with my_unreadByteAvail := false, my_totRead := (self.my_totRead + 1) % U32 }
      (Hw.waitReceivePending d self.my_sn w).2 hbound hdrv
    exact ⟨w1, by rw [herr (fuel + 1) hwait, hc]; rfl⟩

/-- Witness of C17 (as amended): slot 0 holds the pushed-back byte 9 and has a
datagram waiting; one byte is asked for. -/
theorem readBuffer_one_with_pending_witness :
    UdpPeer.readBuffer simW5100 0 (mkPeer 0 9 true 7 0) (some [0, 0]) 1
        (simWorld [[72]] false true)
      = some (1, some [9, 0], mkPeer 0 9 false 8 0,
          { hw := simChip [[72]] false true,
            calls := [DriverCall.waitReceivePending 0, DriverCall.receive 0 0] }) :=
  (readBuffer_one_with_pending simW5100 0 (mkPeer 0 9 true 7 0) 0 [0]
    (simWorld [[72]] false true) (by decide) rfl).1 (by decide) (by decide)

/-- C17 (counterexample to the claim as stated): a connection bound to slot 0
holds the pushed-back byte 9 and the driver has nothing waiting, so its wait
for receive reports an error.  `readBuffer(buf, 1)` returns 1 with 9 at
position 0, but it has called the driver (the wait, then the status check and
close command of `close()`) and the connection is unbound when it returns. -/
theorem readBuffer_one_with_pending_counterexample :
    (mkPeer 0 9 true 7 0).prv_isValidSn simW5100 = true ∧
    UdpPeer.readBuffer simW5100 1 (mkPeer 0 9 true 7 0) (some [0, 0]) 1
        (simWorld [] false true)
      = some (1, some [9, 0], mkPeer 255 9 false 8 0,
          { hw := (simChip [] false true).setSlot 0 SimSlot.idle,
            calls := [DriverCall.waitReceivePending 0, DriverCall.isClosed 0,
                      DriverCall.close 0, DriverCall.isClosed 0] }) ∧
    (mkPeer 255 9 false 8 0).prv_isValidSn simW5100 = false := by
  decide

/-! ## Opening an object that is already bound -/

/-- C18 (the code at the failing input): an object bound to slot 0 (local port
8080) is opened again on local port 8081.  `open` returns true and the object
now names slot 1; slot 0 is still open on the chip (not closed), no close
command was issued on it, and the object no longer refers to it. -/
theorem open_orphans_bound_slot :
    (mkPeer 0 0 false 0 0).prv_isValidSn simW5100 = true ∧
    UdpPeer.open simW5100 1 (mkPeer 0 0 false 0 0) 8081
        { ip0 := 192, ip1 := 168, ip2 := 1, ip3 := 2 } 77 (simWorld [] false true)
      = some (true,
          { mkPeer 1 0 false 0 0 with
            my_dstIpAddr := { ip0 := 192, ip1 := 168, ip2 := 1, ip3 := 2 }, my_dstPort := 77 },
          { hw := (simChip [] false true).setSlot 1 { closed := false, port := 8081, rx := [] },
            calls := [DriverCall.isClosed 0, DriverCall.read_Sn_R16 0 SnReg.W5100_Sn_PORT,
                      DriverCall.isClosed 1, DriverCall.isClosed 2, DriverCall.isClosed 3,
                      DriverCall.openUDP 0 8081, DriverCall.openUDP 1 8081] }) ∧
    simW5100.isClosed
      ((simChip [] false true).setSlot 1 { closed := false, port := 8081, rx := [] }) 0
      = false ∧
    DriverCall.close 0 ∉
      [DriverCall.isClosed 0, DriverCall.read_Sn_R16 0 SnReg.W5100_Sn_PORT,
       DriverCall.isClosed 1, DriverCall.isClosed 2, DriverCall.isClosed 3,
       DriverCall.openUDP 0 8081, DriverCall.openUDP 1 8081] := by
  decide

end HttpSvr
